import Mathlib

/-!
Verification of the coverage-gap analysis engine of the warehouse backend.

The definitions below are a shallow embedding of the Python source, kept as
close as possible to the code:

* `coverage_gap/coverage_gap_service.py`:
  `transform_warehouse_to_static_data`, `apply_warehouse_filters`,
  the city grouping / radius expansion loops of `get_coverage_gap_analysis`,
  the per-city metric computation (tier counts, `expansionOpportunity`),
  the SSE event stream of `get_coverage_gap_analysis_stream`, and the cache
  keys it reads.
* `coverage_gap/coverage_gap_precache.py`:
  `get_precache_key`, `precache_coverage_gap_analysis`, `precache_all_radii`.

Python machine floats are modelled by `ℚ` (all arithmetic appearing in the
claims is exact at rational inputs), Airtable JSON values by the inductive
`FieldValue`, Python dicts by insertion-ordered association lists, and the
Haversine distance by an abstract distance function parameter (none of the
claims depends on the concrete great-circle formula).  Python's `str.strip`,
`str.upper` and `str.split(',')` are modelled character-by-character below so
that every definition kernel-evaluates on concrete inputs.
-/

/-- ASCII uppercasing, the model of Python `str.upper` on the ASCII strings
occurring in the data. -/
def upperStr (s : String) : String := ⟨s.data.map Char.toUpper⟩

/-- Drops leading and trailing whitespace from a character list. -/
def trimChars (l : List Char) : List Char :=
  ((l.dropWhile Char.isWhitespace).reverse.dropWhile Char.isWhitespace).reverse

/-- Model of Python `str.strip()`. -/
def trimStr (s : String) : String := ⟨trimChars s.data⟩

/-- Splits a character list at commas; model of Python `str.split(',')`. -/
def splitCommaAux : List Char → List Char → List (List Char)
  | [], acc => [acc.reverse]
  | c :: rest, acc =>
    if c = ',' then acc.reverse :: splitCommaAux rest []
    else splitCommaAux rest (c :: acc)

/-- Model of Python `s.split(',')`. -/
def splitComma (s : String) : List String := (splitCommaAux s.data []).map (fun l => ⟨l⟩)

/-- Model of the list comprehension
`[item.strip().upper() for item in s.split(',') if item.strip()]`
used by `apply_warehouse_filters` for comma-joined capability fields. -/
def commaValues (s : String) : List String :=
  (((splitComma s).map trimStr).filter (fun item => item ≠ "")).map upperStr

/-- Canonical warehouse record, after normalization; mirrors the pydantic
model `StaticWarehouseData` in `warehouse/models.py` (floats as `ℚ`). -/
structure StaticWarehouseData where
  id : String
  warehouse_id : String
  name : String
  city : String
  state : String
  zipCode : String
  status : String
  tier : String
  lat : ℚ
  lng : ℚ
  hazmat : String
  disposal : String
  warehouseTempControlled : String
  foodGrade : String
  paperClamps : String
  parkingSpots : String
  reqCount : ℕ
deriving DecidableEq, Repr

/-- Filter specification; mirrors the pydantic model `CoverageGapFilters`
(`None` as `Option.none`).  Python truthiness of an optional list is
"present and non-empty", see `optListTruthy`. -/
structure CoverageGapFilters where
  tier : Option (List String)
  state : Option String
  city : Option String
  hazmat : Option (List String)
  disposal : Option (List String)
  warehouseTempControlled : Option (List String)
  foodGrade : Option (List String)
  paperClamps : Option (List String)
  parkingSpots : Option (List String)
deriving DecidableEq, Repr

/-- Truthiness of an optional list in Python (`None` and `[]` are falsy). -/
def optListTruthy : Option (List String) → Bool
  | none => false
  | some l => !l.isEmpty

/-- Truthiness of an optional string in Python (`None` and `""` are falsy). -/
def optStrTruthy : Option String → Bool
  | none => false
  | some s => s ≠ ""

/-- The standard tier names, uppercased, as in the `standard_tiers` list in
the tier branch of `apply_warehouse_filters`. -/
def standardTiersUpper : List String := ["GOLD", "POTENTIAL GOLD", "SILVER", "BRONZE"]

/-- Tier filter match: mirrors the `for filter_tier in filters.tier` loop of
`apply_warehouse_filters` (first match wins, which coincides with `any`). -/
def tierMatches (warehouseTier : String) (filterTiers : List String) : Bool :=
  let ts := trimStr warehouseTier
  filterTiers.any (fun filter_tier =>
    let ftu := upperStr (trimStr filter_tier)
    if ftu = "GOLD" then
      upperStr ts = "GOLD" || upperStr ts = "POTENTIAL GOLD"
    else if ftu = "UN-TIERED" || ftu = "UNTIERED" then
      ts = "" || !(standardTiersUpper.contains (upperStr ts))
    else
      upperStr ts = ftu)

/-- Per-record predicate of `apply_warehouse_filters`: the record survives
every `continue` branch of the loop body. -/
def passesFilters (filters : CoverageGapFilters) (wh : StaticWarehouseData) : Bool :=
  (if optListTruthy filters.tier then tierMatches wh.tier (filters.tier.getD []) else true) &&
  (if optStrTruthy filters.state then decide (wh.state = filters.state.getD "") else true) &&
  (if optStrTruthy filters.city then decide (wh.city = filters.city.getD "") else true) &&
  (if optListTruthy filters.hazmat then (filters.hazmat.getD []).contains wh.hazmat else true) &&
  (if optListTruthy filters.disposal then (filters.disposal.getD []).contains wh.disposal else true) &&
  (if optListTruthy filters.warehouseTempControlled then
      wh.warehouseTempControlled ≠ "" &&
      ((filters.warehouseTempControlled.getD []).map (fun t => upperStr (trimStr t))).any
        (fun temp => (commaValues wh.warehouseTempControlled).contains temp)
    else true) &&
  (if optListTruthy filters.foodGrade then
      wh.foodGrade ≠ "" &&
      (filters.foodGrade.getD []).any
        (fun fg => upperStr (trimStr fg) = upperStr (trimStr wh.foodGrade))
    else true) &&
  (if optListTruthy filters.paperClamps then
      wh.paperClamps ≠ "" &&
      ((filters.paperClamps.getD []).map (fun c => upperStr (trimStr c))).any
        (fun clamp => (commaValues wh.paperClamps).contains clamp)
    else true) &&
  (if optListTruthy filters.parkingSpots then
      wh.parkingSpots ≠ "" &&
      ((filters.parkingSpots.getD []).map (fun p => upperStr (trimStr p))).any
        (fun spot => (commaValues wh.parkingSpots).contains spot)
    else true)

/-- Model of `apply_warehouse_filters`: the loop appends every surviving
record in order, i.e. it is a filter. -/
def applyWarehouseFilters (warehouses : List StaticWarehouseData)
    (filters : CoverageGapFilters) : List StaticWarehouseData :=
  warehouses.filter (passesFilters filters)

/-- Empty filter specification (all fields `None`). -/
def noFilters : CoverageGapFilters :=
  ⟨none, none, none, none, none, none, none, none, none⟩

/-- Model of the `expansion_opportunity` conditional chain in
`get_coverage_gap_analysis` (lines 850-863), with
`avg_requests_per_warehouse = total_requests_in_city / warehouse_count if
warehouse_count > 0 else 0`. -/
def expansionOpportunity (warehouse_count : ℕ) (total_requests : ℕ) : String :=
  let avg_requests_per_warehouse : ℚ :=
    if warehouse_count > 0 then (total_requests : ℚ) / warehouse_count else 0
  if avg_requests_per_warehouse > 25 then "High"
  else if warehouse_count = 1 ∧ total_requests > 10 then "High"
  else if warehouse_count = 1 ∧ total_requests > 3 then "Moderate"
  else if warehouse_count < 3 ∧ total_requests > 15 then "Moderate"
  else if avg_requests_per_warehouse > 15 then "Moderate"
  else if total_requests = 0 then "None"
  else "None"

/-- Spec-side definition, written from the claim's words: `avgReq = r/n`
(or 0 if n = 0), and the first matching rule of
a. `avgReq > 25` → High; b. `n = 1 ∧ r > 10` → High;
c. `n = 1 ∧ r > 3` → Moderate; d. `n < 3 ∧ r > 15` → Moderate;
e. `avgReq > 15` → Moderate; f. otherwise None. -/
def expansionOpportunitySpec (n r : ℕ) : String :=
  let avgReq : ℚ := if n = 0 then 0 else (r : ℚ) / n
  if avgReq > 25 then "High"
  else if n = 1 ∧ r > 10 then "High"
  else if n = 1 ∧ r > 3 then "Moderate"
  else if n < 3 ∧ r > 15 then "Moderate"
  else if avgReq > 15 then "Moderate"
  else "None"

/-- The tier strings counted as gold in the per-city metric loop
(`w.tier in ["Gold", "Potential Gold"]`, exact comparison). -/
def isGoldTier (w : StaticWarehouseData) : Bool :=
  w.tier = "Gold" || w.tier = "Potential Gold"

/-- Silver bucket (`w.tier == "Silver"`). -/
def isSilverTier (w : StaticWarehouseData) : Bool := w.tier = "Silver"

/-- Bronze bucket (`w.tier == "Bronze"`). -/
def isBronzeTier (w : StaticWarehouseData) : Bool := w.tier = "Bronze"

/-- The `standard_tiers` list of the metric loop (exact strings). -/
def standardTiers : List String := ["Gold", "Potential Gold", "Silver", "Bronze"]

/-- Untiered bucket: `not w.tier or w.tier.strip() == "" or
w.tier not in standard_tiers` (the tier field is always a string). -/
def isUnTiered (w : StaticWarehouseData) : Bool :=
  w.tier = "" || trimStr w.tier = "" || !(standardTiers.contains w.tier)

/-- Gold warehouse count of a group (`gold_count`). -/
def goldCount (ws : List StaticWarehouseData) : ℕ := ws.countP isGoldTier

/-- Silver warehouse count of a group (`silver_count`). -/
def silverCount (ws : List StaticWarehouseData) : ℕ := ws.countP isSilverTier

/-- Bronze warehouse count of a group (`bronze_count`). -/
def bronzeCount (ws : List StaticWarehouseData) : ℕ := ws.countP isBronzeTier

/-- Untiered warehouse count of a group (`un_tiered_count`). -/
def unTieredCount (ws : List StaticWarehouseData) : ℕ := ws.countP isUnTiered

/-- Loosely-typed Airtable field value, the model of the JSON shapes a raw
warehouse record may contain. -/
inductive FieldValue where
  | null : FieldValue
  | str (s : String) : FieldValue
  | num (q : ℚ) : FieldValue
  | boolean (b : Bool) : FieldValue
  | list (items : List FieldValue) : FieldValue
  | obj (entries : List (String × FieldValue)) : FieldValue

mutual

/-- Model of Python `str(value)` for field values.  The exact text produced
for numbers and containers never influences any claim; only its behaviour on
strings and `None` does. -/
def pyStr : FieldValue → String
  | .null => "None"
  | .str s => s
  | .num q => toString q
  | .boolean b => if b then "True" else "False"
  | .list items => "[" ++ String.intercalate ", " (pyStrList items) ++ "]"
  | .obj entries => "\x7b" ++ String.intercalate ", " (pyStrEntries entries) ++ "\x7d"

/-- Renders the members of a list value. -/
def pyStrList : List FieldValue → List String
  | [] => []
  | v :: rest => pyStr v :: pyStrList rest

/-- Renders the entries of an object value. -/
def pyStrEntries : List (String × FieldValue) → List String
  | [] => []
  | (k, v) :: rest => (k ++ ": " ++ pyStr v) :: pyStrEntries rest

end

/-- Raw warehouse record: `warehouse_record.get("id", "")` and
`warehouse_record.get("fields", {})`. -/
structure RawRecord where
  idValue : Option FieldValue
  fields : List (String × FieldValue)

/-- Model of `fields.get(key, default)` on the field bag. -/
def fieldsGet (fields : List (String × FieldValue)) (key : String)
    (dflt : FieldValue) : FieldValue :=
  match fields.find? (fun p => decide (p.1 = key)) with
  | some p => p.2
  | none => dflt

/-- Model of the coordinate coercion in `transform_warehouse_to_static_data`:
`if isinstance(lat, str): try: lat = float(lat) except: lat = 0.0`.
The Python `float` string parser is the abstract parameter `pf`; parse
failure yields `0.0`.  Values that are not strings pass through unchanged. -/
def coerceCoord (pf : String → Option ℚ) : FieldValue → FieldValue
  | .str s => .num ((pf s).getD 0)
  | v => v

/-- Model of the inner `format_list_field`: lists are comma-joined via
`str`, `None` becomes `""`, anything else is `str(value)`. -/
def formatListField : FieldValue → String
  | .list items => String.intercalate ", " (pyStrList items)
  | .null => ""
  | v => pyStr v

/-- Model of the inner `safe_string_field`: a dict containing an `error` key
becomes `""`, `None` becomes `""`, anything else is `str(value)`. -/
def safeStringField : FieldValue → String
  | .obj entries => if (entries.map Prod.fst).contains "error" then ""
                    else pyStr (.obj entries)
  | .null => ""
  | v => pyStr v

/-- Pydantic validation of a `float`-typed field (lax mode): numbers pass,
numeric strings are parsed, everything else is a validation error. -/
def validateFloat (pf : String → Option ℚ) : FieldValue → Except String ℚ
  | .num q => .ok q
  | .str s =>
    match pf s with
    | some q => .ok q
    | none => .error "Input should be a valid number"
  | _ => .error "Input should be a valid number"

/-- Pydantic validation of a `str`-typed field (lax mode): only strings
pass. -/
def validateStr : FieldValue → Except String String
  | .str s => .ok s
  | _ => .error "Input should be a valid string"

/-- Model of `transform_warehouse_to_static_data`.  The `Except` models the
exception channel: pydantic raises `ValidationError` when the computed `lat`,
`lng` or `id` value does not validate against its declared type (every other
field is a string by construction of the two coercion helpers). -/
def transformWarehouseToStaticData (pf : String → Option ℚ) (record : RawRecord)
    (request_count : ℕ) : Except String StaticWarehouseData :=
  let fields := record.fields
  let lat := coerceCoord pf (fieldsGet fields "Latitude" (.num 0))
  let lng := coerceCoord pf (fieldsGet fields "Longitude" (.num 0))
  do
  let latQ ← validateFloat pf lat
  let lngQ ← validateFloat pf lng
  let idS ← validateStr (record.idValue.getD (.str ""))
  .ok {
    id := idS,
    warehouse_id := safeStringField (fieldsGet fields "WarehouseID" (.str "")),
    name := safeStringField (fieldsGet fields "Warehouse Name" (.str "")),
    city := safeStringField (fieldsGet fields "City" (.str "")),
    state := safeStringField (fieldsGet fields "State" (.str "")),
    zipCode := trimStr (safeStringField (fieldsGet fields "ZIP" (.str ""))),
    status := formatListField (fieldsGet fields "Status" (.str "")),
    tier := safeStringField (fieldsGet fields "Tier" (.str "")),
    lat := latQ,
    lng := lngQ,
    hazmat := safeStringField (fieldsGet fields "Hazmat" (.str "")),
    disposal := safeStringField (fieldsGet fields "Disposal" (.str "")),
    warehouseTempControlled := formatListField (fieldsGet fields "Warehouse Temp Controlled" (.str "")),
    foodGrade := safeStringField (fieldsGet fields "Food Grade" (.str "")),
    paperClamps := formatListField (fieldsGet fields "Paper Clamps" (.str "")),
    parkingSpots := formatListField (fieldsGet fields "Parking Spots" (.str "")),
    reqCount := request_count }

/-- Process-wide TTL cache, modelled as an insertion-ordered association
list of key, value and ttl; mirrors `MemoryCache` in
`warehouse/warehouse_service.py` at the level the claims need. -/
structure MemoryCache (α : Type) where
  entries : List (String × α × ℕ)
deriving DecidableEq, Repr

/-- Model of `_cache.set(key, value, ttl)`: replace in place if the key
exists, append otherwise (dict assignment order semantics). -/
def cacheSet {α : Type} (c : MemoryCache α) (key : String) (value : α)
    (ttl : ℕ) : MemoryCache α :=
  if c.entries.any (fun e => decide (e.1 = key)) then
    ⟨c.entries.map (fun e => if e.1 = key then (e.1, value, ttl) else e)⟩
  else ⟨c.entries ++ [(key, value, ttl)]⟩

/-- Model of `get_precache_key(radius)`; the argument is the rendered text
of the radius float inside the f-string. -/
def getPrecacheKey (radiusRendered : String) : String :=
  "coverage_gap:precached:radius_" ++ radiusRendered

/-- Cache key built by `get_coverage_gap_analysis` (and its streaming twin):
`f"coverage_gap:{filter_key}{radius_key}"` with
`radius_key = f"_radius_{radius_miles}" if radius_miles else "_no_radius"`;
for an unfiltered request `filter_key = "no_filters"`. -/
def analysisCacheKeyNoFilters (radiusTruthy : Bool) (radiusRendered : String) : String :=
  "coverage_gap:" ++ "no_filters" ++
    (if radiusTruthy then "_radius_" ++ radiusRendered else "_no_radius")

/-- Keyword names accepted by the signature
`get_coverage_gap_analysis(filters=None, radius_miles=None)`. -/
def getCoverageGapAnalysisKeywords : List String := ["filters", "radius_miles"]

/-- Keyword names used at the call site inside
`precache_coverage_gap_analysis`:
`get_coverage_gap_analysis(filters=None, radius_miles=radius, skip_precache=True)`. -/
def precacheCallKeywords : List String := ["filters", "radius_miles", "skip_precache"]

/-- Python keyword-argument application: if any provided keyword is not in
the callee's parameter list the call raises `TypeError` before the body
runs; otherwise the body runs. -/
def callWithKeywords {α : Type} (accepted provided : List String)
    (body : Unit → α) : Except String α :=
  if provided.all (fun k => accepted.contains k) then .ok (body ())
  else .error "TypeError: unexpected keyword argument"

/-- Model of `precache_coverage_gap_analysis(radius)`: inside `try`, call
`get_coverage_gap_analysis` with the keywords of `precacheCallKeywords`
(`analysis` abstracts the analysis body), then cache the result under
`get_precache_key(radius)` with a 90000 second (25 hour) TTL and return
`True`; any exception is caught and `False` is returned. -/
def precacheCoverageGapAnalysis {α : Type} (analysis : Unit → α)
    (radiusRendered : String) (cache : MemoryCache α) : Bool × MemoryCache α :=
  match callWithKeywords getCoverageGapAnalysisKeywords precacheCallKeywords analysis with
  | .ok result => (true, cacheSet cache (getPrecacheKey radiusRendered) result 90000)
  | .error _ => (false, cache)

/-- The configured radius parameter set `PRECACHED_RADII`. -/
def PRECACHED_RADII : List ℚ := [25, 50, 100, 250, 500]

/-- Maximum number of retry attempts (`MAX_RETRIES`). -/
def MAX_RETRIES : ℕ := 3

/-- Base delay in seconds for exponential backoff (`RETRY_BASE_DELAY`). -/
def RETRY_BASE_DELAY : ℕ := 5

/-- Observable side effects of one `precache_all_radii` run: each call into
`precache_coverage_gap_analysis` (tagged with the attempt round: 0 is the
initial pass, 1..3 are the retry rounds), each backoff sleep, and the final
timestamp write with its TTL. -/
inductive PrecacheEvent where
  | call (radius : ℚ) (attempt : ℕ) (success : Bool)
  | sleep (seconds : ℕ)
  | saveTimestamp (ttl : ℕ)
deriving DecidableEq, Repr

/-- State of a `precache_all_radii` run: the insertion-ordered `results`
dict and the trace of side effects so far. -/
structure PrecacheRun where
  results : List (ℚ × String)
  trace : List PrecacheEvent
deriving DecidableEq, Repr

/-- Model of `results[radius] = status` on the insertion-ordered dict. -/
def setResult (results : List (ℚ × String)) (radius : ℚ) (status : String) :
    List (ℚ × String) :=
  if results.any (fun p => decide (p.1 = radius)) then
    results.map (fun p => if p.1 = radius then (p.1, status) else p)
  else results ++ [(radius, status)]

/-- Model of `[radius for radius, status in results.items() if status == "failed"]`. -/
def failedRadii (results : List (ℚ × String)) : List ℚ :=
  (results.filter (fun p => decide (p.2 = "failed"))).map Prod.fst

/-- The initial pass of `precache_all_radii`: one call per configured
radius, recording `"success"` or `"failed"`.  The outcome of each call is
the abstract oracle `ok radius attempt` (attempt 0), abstracting the
success or failure of `precache_coverage_gap_analysis`. -/
def initialPass (ok : ℚ → ℕ → Bool) (radii : List ℚ) : PrecacheRun :=
  radii.foldl (fun st radius =>
    let success := ok radius 0
    ⟨setResult st.results radius (if success then "success" else "failed"),
     st.trace ++ [.call radius 0 success]⟩) ⟨[], []⟩

/-- One iteration of the retry `while` loop of `precache_all_radii` for a
given `retry_attempt` value: if no radius is currently `"failed"` the loop
body does nothing (the `break` case); otherwise it sleeps
`RETRY_BASE_DELAY * 2 ** (retry_attempt - 1)` seconds and re-runs every
failed radius. -/
def retryRound (ok : ℚ → ℕ → Bool) (retry_attempt : ℕ) (st : PrecacheRun) :
    PrecacheRun :=
  let failed := failedRadii st.results
  if failed.isEmpty then st
  else
    let retry_delay := RETRY_BASE_DELAY * 2 ^ (retry_attempt - 1)
    failed.foldl (fun s radius =>
      let success := ok radius retry_attempt
      ⟨setResult s.results radius (if success then "success" else "failed"),
       s.trace ++ [.call radius retry_attempt success]⟩)
      ⟨st.results, st.trace ++ [.sleep retry_delay]⟩

/-- Model of `precache_all_radii`: initial pass over `PRECACHED_RADII`,
at most `MAX_RETRIES = 3` retry rounds (a round with no failed radii is the
`break`), then `save_last_precache_timestamp()` which stores the timestamp
with a 2592000 second (30 day) TTL. -/
def precacheAllRadii (ok : ℚ → ℕ → Bool) : PrecacheRun :=
  let st := initialPass ok PRECACHED_RADII
  let st := retryRound ok 1 st
  let st := retryRound ok 2 st
  let st := retryRound ok 3 st
  ⟨st.results, st.trace ++ [.saveTimestamp 2592000]⟩

/-- Authoritative catalog entry for one city from `us_cities.json`
(`{city, state, latitude, longitude, zipcodes}`). -/
structure CityInfo where
  city : String
  state : String
  latitude : ℚ
  longitude : ℚ
  zipcodes : List String
deriving DecidableEq, Repr

/-- One value of the `warehouse_city_data` dict: the accumulated warehouse
list of a location group and its running `totalRequests`. -/
structure GroupData where
  warehouses : List StaticWarehouseData
  totalRequests : ℕ
deriving DecidableEq, Repr

/-- Association-list lookup by key (first match), the model of reading a
Python dict entry. -/
def lookupKey {α : Type} (l : List (String × α)) (key : String) : Option α :=
  (l.find? (fun p => decide (p.1 = key))).map Prod.snd

/-- Insertion of one warehouse into `warehouse_city_data` under `key`,
mirroring the grouping loop body of `get_coverage_gap_analysis`. -/
def addToGroup (acc : List (String × GroupData)) (key : String)
    (w : StaticWarehouseData) : List (String × GroupData) :=
  if acc.any (fun p => decide (p.1 = key)) then
    acc.map (fun p =>
      if p.1 = key then
        (p.1, ⟨p.2.warehouses ++ [w], p.2.totalRequests + w.reqCount⟩)
      else p)
  else acc ++ [(key, ⟨[w], w.reqCount⟩)]

/-- Model of the "Group warehouses by city" loop: records with a blank
(stripped) city or state are skipped, the rest are appended to the group
keyed `f"{city},{state}"`. -/
def groupByCity (static_warehouses : List StaticWarehouseData) :
    List (String × GroupData) :=
  static_warehouses.foldl (fun acc warehouse =>
    let city := trimStr warehouse.city
    let state := trimStr warehouse.state
    if city = "" || state = "" then acc
    else addToGroup acc (city ++ "," ++ state) warehouse) []

/-- Warehouses with valid coordinates:
`[wh for wh in static_warehouses if wh.lat != 0 and wh.lng != 0]`. -/
def validWarehouses (static_warehouses : List StaticWarehouseData) :
    List StaticWarehouseData :=
  static_warehouses.filter (fun wh => decide (wh.lat ≠ 0) && decide (wh.lng ≠ 0))

/-- Center of a location group for radius expansion: the authoritative city
coordinate when the catalog has the key with truthy latitude and longitude,
otherwise the arithmetic mean of the member warehouses' valid coordinates,
or `none` (the `continue` branch) when neither exists. -/
def groupCenter (usCities : List (String × CityInfo)) (key : String)
    (data : GroupData) : Option (ℚ × ℚ) :=
  let fromWarehouses : Option (ℚ × ℚ) :=
    let valid_coords := (data.warehouses.filter
      (fun wh => decide (wh.lat ≠ 0) && decide (wh.lng ≠ 0))).map
        (fun wh => (wh.lat, wh.lng))
    if valid_coords.isEmpty then none
    else some ((valid_coords.map Prod.fst).sum / valid_coords.length,
               (valid_coords.map Prod.snd).sum / valid_coords.length)
  match lookupKey usCities key with
  | some ci =>
    if ci.latitude ≠ 0 ∧ ci.longitude ≠ 0 then some (ci.latitude, ci.longitude)
    else fromWarehouses
  | none => fromWarehouses

/-- First expansion pass, per existing group: walk `valid_warehouses` and
append every warehouse within `radius_miles` of the group's center that is
not already present (dedup by the `existing_warehouse_ids` set); the second
component of the fold state is that id set. -/
def expandGroup (dist : ℚ → ℚ → ℚ → ℚ → ℚ) (radius_miles : ℚ)
    (valid_warehouses : List StaticWarehouseData)
    (usCities : List (String × CityInfo)) (key : String) (data : GroupData) :
    GroupData :=
  match groupCenter usCities key data with
  | none => data
  | some (center_lat, center_lng) =>
    (valid_warehouses.foldl (fun (acc : GroupData × List String) warehouse =>
      if acc.2.contains warehouse.id then acc
      else if dist center_lat center_lng warehouse.lat warehouse.lng ≤ radius_miles then
        (⟨acc.1.warehouses ++ [warehouse], acc.1.totalRequests + warehouse.reqCount⟩,
         acc.2 ++ [warehouse.id])
      else acc)
      (data, data.warehouses.map (fun wh => wh.id))).1

/-- Second expansion pass: every catalog city not already in the dict and
with truthy coordinates gains a group made of the valid warehouses within
`radius_miles` of its authoritative center, when that set is non-empty.
The fold threads the growing dict exactly as the Python loop does. -/
def expandAll (dist : ℚ → ℚ → ℚ → ℚ → ℚ) (radius_miles : ℚ)
    (valid_warehouses : List StaticWarehouseData)
    (usCities : List (String × CityInfo))
    (warehouse_city_data : List (String × GroupData)) :
    List (String × GroupData) :=
  let phase1 := warehouse_city_data.map (fun p =>
    (p.1, expandGroup dist radius_miles valid_warehouses usCities p.1 p.2))
  usCities.foldl (fun acc p =>
    if acc.any (fun q => decide (q.1 = p.1)) then acc
    else if p.2.latitude = 0 ∨ p.2.longitude = 0 then acc
    else
      let nearby := valid_warehouses.filter (fun warehouse =>
        decide (dist p.2.latitude p.2.longitude warehouse.lat warehouse.lng ≤ radius_miles))
      if nearby.isEmpty then acc
      else acc ++ [(p.1, ⟨nearby, (nearby.map (fun wh => wh.reqCount)).sum⟩)])
    phase1

/-- City grouping of `get_coverage_gap_analysis` including the optional
radius expansion (`if radius_miles and radius_miles > 0`). -/
def coverageGroups (dist : ℚ → ℚ → ℚ → ℚ → ℚ) (radius_miles : ℚ)
    (usCities : List (String × CityInfo))
    (static_warehouses : List StaticWarehouseData) :
    List (String × GroupData) :=
  let groups := groupByCity static_warehouses
  if 0 < radius_miles then
    expandAll dist radius_miles (validWarehouses static_warehouses) usCities groups
  else groups

/-- Mirror of the pydantic `MockWarehouse` (a nearby-warehouse annotation). -/
structure MockWarehouse where
  id : String
  name : String
  tier : String
  distance : ℚ
deriving DecidableEq, Repr

/-- Mirror of the pydantic `CoverageAnalysis` per-city metric record. -/
structure CoverageAnalysis where
  city : String
  state : String
  latitude : ℚ
  longitude : ℚ
  zipcodes : List String
  nearbyWarehouses : List MockWarehouse
  warehouseCount : ℕ
  hasCoverageGap : Bool
  expansionOpportunity : String
  goldWarehouseCount : ℕ
  silverWarehouseCount : ℕ
  bronzeWarehouseCount : ℕ
  unTieredWarehouseCount : ℕ
  warehousesPer100SqMiles : ℚ
  reqCount : ℕ
deriving DecidableEq, Repr

/-- Mirror of the pydantic `CoverageAnalysisResponse` (the optional
`lastPrecacheTimestamp` is never set on this code path and is omitted). -/
structure CoverageAnalysisResponse where
  warehouses : List StaticWarehouseData
  coverageAnalysis : List CoverageAnalysis
  average_number_of_requests : ℕ
  totalWarehouses : ℕ
  totalRequests : ℕ
  analysisRadius : ℚ
deriving DecidableEq, Repr

/-- Mean distance from `wh` to the other members of its group, the
`distance` computation of the "top 3" nearby-warehouse loop (0 when the
group has a single member, no other members, or no valid coordinate
pairs). -/
def meanMemberDistance (dist : ℚ → ℚ → ℚ → ℚ → ℚ)
    (warehouses_in_city : List StaticWarehouseData)
    (wh : StaticWarehouseData) : ℚ :=
  if warehouses_in_city.length > 1 then
    let other_warehouses := warehouses_in_city.filter (fun w => decide (w.id ≠ wh.id))
    if other_warehouses.isEmpty then 0
    else
      let distances := (other_warehouses.filter (fun other_wh =>
        decide (wh.lat ≠ 0) && decide (wh.lng ≠ 0) &&
        decide (other_wh.lat ≠ 0) && decide (other_wh.lng ≠ 0))).map
          (fun other_wh => dist wh.lat wh.lng other_wh.lat other_wh.lng)
      if distances.isEmpty then 0 else distances.sum / distances.length
  else 0

/-- Per-city metric record, mirroring one iteration of the
"Create coverage analysis for ALL US cities" loop. -/
def cityAnalysis (dist : ℚ → ℚ → ℚ → ℚ → ℚ)
    (warehouse_city_data : List (String × GroupData)) (key : String)
    (ci : CityInfo) : CoverageAnalysis :=
  let warehouse_data := (lookupKey warehouse_city_data key).getD ⟨[], 0⟩
  let warehouses_in_city := warehouse_data.warehouses
  let total_requests_in_city := warehouse_data.totalRequests
  let nearby_warehouses := (warehouses_in_city.take 3).map (fun wh =>
    MockWarehouse.mk wh.id wh.name wh.tier
      (meanMemberDistance dist warehouses_in_city wh))
  let warehouse_count := warehouses_in_city.length
  let avg_requests_per_warehouse : ℚ :=
    if warehouse_count > 0 then (total_requests_in_city : ℚ) / warehouse_count else 0
  let estimated_city_area_sq_miles : ℕ := max (warehouse_count * 25) 50
  { city := ci.city
    state := ci.state
    latitude := ci.latitude
    longitude := ci.longitude
    zipcodes := ci.zipcodes
    nearbyWarehouses := nearby_warehouses
    warehouseCount := warehouse_count
    hasCoverageGap := decide (warehouse_count < 2) || decide (avg_requests_per_warehouse > 20)
    expansionOpportunity := expansionOpportunity warehouse_count total_requests_in_city
    goldWarehouseCount := goldCount warehouses_in_city
    silverWarehouseCount := silverCount warehouses_in_city
    bronzeWarehouseCount := bronzeCount warehouses_in_city
    unTieredWarehouseCount := unTieredCount warehouses_in_city
    warehousesPer100SqMiles :=
      if estimated_city_area_sq_miles > 0 then
        ((warehouse_count : ℚ) / estimated_city_area_sq_miles) * 100
      else 0
    reqCount := total_requests_in_city }

/-- One SSE event of `get_coverage_gap_analysis_stream`.  Each constructor
stands for one distinct `yield` template of the generator (`log` events
carry the dynamic values interpolated into their message), plus the
terminal `data` and `error` events. -/
inductive StreamEvent where
  | usingCachedResults
  | fetchingWarehouses
  | fetchedWarehouses (n : ℕ)
  | calculatingTotal
  | totalRequestsEv (n : ℕ)
  | fetchingCounts
  | fetchedCounts (n : ℕ)
  | transformingData
  | transformedPartial (i total : ℕ)
  | transformedAll (n : ℕ)
  | applyingFilters (filters : CoverageGapFilters)
  | afterFiltering (n : ℕ)
  | calculatingAverage
  | averageMonthly (n : ℕ)
  | loadingCities
  | loadedCities (n : ℕ)
  | groupingByCity
  | groupedCities (n : ℕ)
  | expandingRadius (radius : ℚ)
  | processingWarehouses (nw nc : ℕ)
  | expandingExisting
  | checkingAllCities (n : ℕ)
  | processingCity (i total : ℕ)
  | expansionCompleted (n : ℕ)
  | creatingAnalysis (n : ℕ)
  | analyzingCity (i total : ℕ)
  | finalizing
  | complete
  | dataEvent (result : CoverageAnalysisResponse)
  | errorEvent (msg : String)
deriving DecidableEq, Repr

/-- Terminal events of the stream contract: the final `data` or `error`
push event. -/
def isTerminalEvent : StreamEvent → Bool
  | .dataEvent _ => true
  | .errorEvent _ => true
  | _ => false

/-- The 1-based indices at which a loop of `n` iterations emits a progress
event (`if (idx + 1) % step == 0`). -/
def progressMarks (step n : ℕ) : List ℕ :=
  ((List.range n).map (fun i => i + 1)).filter (fun i => i % step = 0)

/-- Request count attached to a raw record:
`warehouse_request_counts.get(warehouse_record.get("id", ""), 0)`. -/
def recordRequestCount (counts : List (String × ℕ)) (record : RawRecord) : ℕ :=
  match record.idValue.getD (.str "") with
  | .str s => (lookupKey counts s).getD 0
  | _ => 0

/-- The transform loop of the stream: transforms records in order, emitting
a progress event every 500 records; the first record on which the
normalizer raises aborts the loop with the exception message (events
already emitted are kept). -/
def transformLoop (pf : String → Option ℚ) (counts : List (String × ℕ))
    (total : ℕ) :
    List RawRecord → ℕ → List StaticWarehouseData × List StreamEvent × Option String
  | [], _ => ([], [], none)
  | record :: rest, idx =>
    match transformWarehouseToStaticData pf record (recordRequestCount counts record) with
    | .error e => ([], [], some e)
    | .ok sw =>
      let ev : List StreamEvent :=
        if (idx + 1) % 500 = 0 then [.transformedPartial (idx + 1) total] else []
      let (ws, evs, err) := transformLoop pf counts total rest (idx + 1)
      (sw :: ws, ev ++ evs, err)

/-- Environment of one stream invocation: the cached entry for the request's
cache key (if any), the outcome of the warehouse fetch (the one awaited call
whose exceptions reach the generator's `try`), the values returned by the
internally-exception-catching helpers, the catalog, the float parser, the
distance function, and the request parameters. -/
structure StreamEnv where
  cached : Option CoverageAnalysisResponse
  fetchResult : Except String (List RawRecord)
  total_requests : ℕ
  warehouse_request_counts : List (String × ℕ)
  average_monthly_requests : ℕ
  usCities : List (String × CityInfo)
  pf : String → Option ℚ
  dist : ℚ → ℚ → ℚ → ℚ → ℚ
  filters : Option CoverageGapFilters
  radius_miles : Option ℚ

/-- Model of `get_coverage_gap_analysis_stream` as the list of SSE events it
yields, following the generator body line by line: cached short-circuit,
fetch, counts, transform loop, optional filtering, averages, catalog load,
grouping, optional radius expansion with its progress loop, the metric loop,
and the final `data` event; any exception yields one `error` event and ends
the stream. -/
def coverageGapAnalysisStreamEvents (env : StreamEnv) : List StreamEvent :=
  match env.cached with
  | some cachedResult => [.usingCachedResults, .dataEvent cachedResult]
  | none =>
    .fetchingWarehouses ::
    match env.fetchResult with
    | .error e => [.errorEvent ("Coverage gap analysis failed: " ++ e)]
    | .ok warehouses_data =>
      [.fetchedWarehouses warehouses_data.length,
       .calculatingTotal,
       .totalRequestsEv env.total_requests,
       .fetchingCounts,
       .fetchedCounts env.warehouse_request_counts.length,
       .transformingData] ++
      (let tr := transformLoop env.pf env.warehouse_request_counts
        warehouses_data.length warehouses_data 0
       tr.2.1 ++
       match tr.2.2 with
       | some e => [.errorEvent ("Coverage gap analysis failed: " ++ e)]
       | none =>
        .transformedAll tr.1.length ::
        (let static_warehouses :=
          match env.filters with
          | some f => applyWarehouseFilters tr.1 f
          | none => tr.1
         (match env.filters with
          | some f => [.applyingFilters f, .afterFiltering static_warehouses.length]
          | none => []) ++
         [.calculatingAverage,
          .averageMonthly env.average_monthly_requests,
          .loadingCities,
          .loadedCities env.usCities.length,
          .groupingByCity,
          .groupedCities (groupByCity static_warehouses).length] ++
         (let expand := match env.radius_miles with
            | some r => decide (0 < r)
            | none => false
          let warehouse_city_data :=
            if expand then
              expandAll env.dist ((env.radius_miles).getD 0)
                (validWarehouses static_warehouses) env.usCities
                (groupByCity static_warehouses)
            else groupByCity static_warehouses
          (if expand then
            [.expandingRadius ((env.radius_miles).getD 0),
             .processingWarehouses (validWarehouses static_warehouses).length
               env.usCities.length,
             .expandingExisting,
             .checkingAllCities env.usCities.length] ++
            (progressMarks 5000 env.usCities.length).map
              (fun i => .processingCity i env.usCities.length) ++
            [.expansionCompleted warehouse_city_data.length]
          else []) ++
          [.creatingAnalysis env.usCities.length] ++
          (progressMarks 5000 env.usCities.length).map
            (fun i => .analyzingCity i env.usCities.length) ++
          [.finalizing, .complete,
           .dataEvent
             { warehouses := static_warehouses
               coverageAnalysis := env.usCities.map (fun p =>
                 cityAnalysis env.dist warehouse_city_data p.1 p.2)
               average_number_of_requests := env.average_monthly_requests
               totalWarehouses := static_warehouses.length
               totalRequests := env.total_requests
               analysisRadius :=
                 match env.radius_miles with
                 | some r => if r ≠ 0 then r else 50
                 | none => 50 }])))

/-- Capability-filter predicate written from the claim's words: the record
passes iff at least one filter value appears (case-insensitively) in the
record's set of comma-split values. -/
def capabilityClaimPass (recordValue : String) (filterValues : List String) : Bool :=
  filterValues.any (fun fv => (commaValues recordValue).contains (upperStr (trimStr fv)))

/-- Test fixture: a warehouse record with the given identity, location,
coordinates, request count and tier, and the given capability strings. -/
def sampleWarehouse (id city state : String) (lat lng : ℚ) (req : ℕ)
    (tier : String) (hazmat : String) : StaticWarehouseData :=
  { id := id, warehouse_id := id, name := id, city := city, state := state,
    zipCode := "", status := "", tier := tier, lat := lat, lng := lng,
    hazmat := hazmat, disposal := "", warehouseTempControlled := "",
    foodGrade := "", paperClamps := "", parkingSpots := "", reqCount := req }

/-- Fixture for the hazmat counterexample: field value `"yes"`. -/
def hazmatYesWarehouse : StaticWarehouseData :=
  sampleWarehouse "rec1" "Springfield" "IL" 1 1 0 "Gold" "yes"

/-- Filter spec requesting hazmat `["Yes"]` and nothing else. -/
def hazmatOnlyFilter : CoverageGapFilters :=
  ⟨none, none, none, some ["Yes"], none, none, none, none, none⟩

/-- Fixture for the normalizer claim: a raw record whose `Latitude` field is
an error-shaped object (an upstream formula-evaluation failure), as the spec
says such fields are. -/
def errorLatitudeRecord : RawRecord :=
  { idValue := some (.str "recErr"),
    fields := [("Latitude", .obj [("error", .str "#ERROR!")]),
               ("Longitude", .num 10)] }
/-- Entries the second expansion pass appends, as a recursion over the
catalog threading the set of keys already present (the growing dict of the
Python loop); `used` is that key set. -/
def phase2Extras (dist : ℚ → ℚ → ℚ → ℚ → ℚ) (radius_miles : ℚ)
    (valid_warehouses : List StaticWarehouseData) :
    List (String × CityInfo) → List String → List (String × GroupData)
  | [], _ => []
  | (key, ci) :: rest, used =>
    if key ∈ used then phase2Extras dist radius_miles valid_warehouses rest used
    else if ci.latitude = 0 ∨ ci.longitude = 0 then
      phase2Extras dist radius_miles valid_warehouses rest used
    else
      let nearby := valid_warehouses.filter (fun warehouse =>
        decide (dist ci.latitude ci.longitude warehouse.lat warehouse.lng ≤ radius_miles))
      if nearby.isEmpty then phase2Extras dist radius_miles valid_warehouses rest used
      else (key, ⟨nearby, (nearby.map (fun wh => wh.reqCount)).sum⟩) ::
        phase2Extras dist radius_miles valid_warehouses rest (used ++ [key])

/-- Fixture: the degenerate distance function that reports every pair of
points at distance 0. -/
def distZero : ℚ → ℚ → ℚ → ℚ → ℚ := fun _ _ _ _ => 0

/-- Fixture: a grouped warehouse in Springfield, IL. -/
def monoWA : StaticWarehouseData :=
  sampleWarehouse "A" "Springfield" "IL" 1 1 2 "Gold" ""

/-- Fixture: an ungrouped warehouse (blank city) with valid coordinates. -/
def monoWB : StaticWarehouseData :=
  sampleWarehouse "B" "" "" 1 2 3 "Silver" ""

/-- Fixture: the two-warehouse set for the monotonicity witness. -/
def monoStatics : List StaticWarehouseData := [monoWA, monoWB]

/-- Fixture: a one-city catalog for the monotonicity witness. -/
def monoCities : List (String × CityInfo) :=
  [("Springfield,IL", ⟨"Springfield", "IL", 1, 1, []⟩)]

/-- Position of each stream-event template in the generator body (used to
order events; each `yield` site has a distinct number, in source order). -/
def eventSite : StreamEvent → ℕ
  | .usingCachedResults => 0
  | .fetchingWarehouses => 1
  | .fetchedWarehouses _ => 2
  | .calculatingTotal => 3
  | .totalRequestsEv _ => 4
  | .fetchingCounts => 5
  | .fetchedCounts _ => 6
  | .transformingData => 7
  | .transformedPartial _ _ => 8
  | .transformedAll _ => 9
  | .applyingFilters _ => 10
  | .afterFiltering _ => 11
  | .calculatingAverage => 12
  | .averageMonthly _ => 13
  | .loadingCities => 14
  | .loadedCities _ => 15
  | .groupingByCity => 16
  | .groupedCities _ => 17
  | .expandingRadius _ => 18
  | .processingWarehouses _ _ => 19
  | .expandingExisting => 20
  | .checkingAllCities _ => 21
  | .processingCity _ _ => 22
  | .expansionCompleted _ => 23
  | .creatingAnalysis _ => 24
  | .analyzingCity _ _ => 25
  | .finalizing => 26
  | .complete => 27
  | .dataEvent _ => 28
  | .errorEvent _ => 29

/-- Loop index of a progress event (0 for the one-shot events). -/
def eventIdx : StreamEvent → ℕ
  | .transformedPartial i _ => i
  | .processingCity i _ => i
  | .analyzingCity i _ => i
  | _ => 0

/-- Strict emission order on stream events: earlier yield site, or same
site with a smaller loop index. -/
def eventLT (a b : StreamEvent) : Bool :=
  eventSite a < eventSite b || (eventSite a == eventSite b && eventIdx a < eventIdx b)

/-- Status string stored for one call outcome
(`"success" if success else "failed"`). -/
def statusString (b : Bool) : String := if b then "success" else "failed"

/-- Status of a radius after the initial pass and `k` retry rounds: success
iff some attempt among rounds `0..k` succeeded. -/
def statusAfter (ok : ℚ → ℕ → Bool) (k : ℕ) (r : ℚ) : String :=
  if (List.range (k + 1)).any (fun j => ok r j) then "success" else "failed"

/-- Results dict holding `g r` for each radius of `radii`, in order. -/
def mapResults (radii : List ℚ) (g : ℚ → String) : List (ℚ × String) :=
  radii.map (fun r => (r, g r))

/-- Projects the sleep events of a trace. -/
def sleepSeconds : PrecacheEvent → Option ℕ
  | .sleep s => some s
  | _ => none

/-- Trace block contributed by retry round `k` (`1 ≤ k ≤ 3`): nothing when
no radius is still failed, otherwise the backoff sleep followed by one call
per failed radius. -/
def roundBlock (ok : ℚ → ℕ → Bool) (k : ℕ) : List PrecacheEvent :=
  let fs := PRECACHED_RADII.filter (fun r => decide (statusAfter ok (k - 1) r = "failed"))
  if fs.isEmpty then []
  else .sleep (RETRY_BASE_DELAY * 2 ^ (k - 1)) :: fs.map (fun r => .call r k (ok r k))

/-- C10: the cache key written by the precache subsystem for radius `r`
(`coverage_gap:precached:radius_{r}`) is never the key the analysis reads
for the same unfiltered request (`coverage_gap:no_filters_radius_{r}`, or
`coverage_gap:no_filters_no_radius` when the radius is falsy), so a
precached entry is never the entry returned to an analysis caller. -/
theorem precache_key_never_equals_analysis_key :
    ∀ (radiusRendered : String) (radiusTruthy : Bool),
      getPrecacheKey radiusRendered ≠ analysisCacheKeyNoFilters radiusTruthy radiusRendered := by
  intro rs b h
  cases b
  · -- radius falsy: the analysis key is a fixed string whose first 30
    -- characters differ from the precache prefix
    have hkey : analysisCacheKeyNoFilters false rs =
        "coverage_gap:" ++ "no_filters" ++ "_no_radius" := rfl
    rw [hkey, getPrecacheKey] at h
    have hd := congrArg String.data h
    simp only [String.data_append] at hd
    have h30 := congrArg (fun l => l.take 30) hd
    simp only at h30
    rw [List.take_append_of_le_length (by decide)] at h30
    exact absurd h30 (by decide)
  · -- radius truthy: the two keys have different lengths
    have hkey : analysisCacheKeyNoFilters true rs =
        "coverage_gap:" ++ "no_filters" ++ ("_radius_" ++ rs) := rfl
    rw [hkey, getPrecacheKey] at h
    have hlen := congrArg String.length h
    simp only [String.length_append] at hlen
    have e1 : ("coverage_gap:precached:radius_" : String).length = 30 := rfl
    have e2 : ("coverage_gap:" : String).length = 13 := rfl
    have e3 : ("no_filters" : String).length = 10 := rfl
    have e4 : ("_radius_" : String).length = 8 := rfl
    rw [e1, e2, e3, e4] at hlen
    omega

/-- C1: `precache_coverage_gap_analysis` always returns `False` and leaves
the cache untouched, for every radius, every cache state and every analysis
body: the call passes the keyword `skip_precache`, which the signature
`get_coverage_gap_analysis(filters=None, radius_miles=None)` does not
accept, so the call raises `TypeError` before the analysis runs and the
`except` branch returns `False` without storing anything. -/
theorem precache_coverage_gap_analysis_always_fails :
    ∀ {α : Type} (analysis : Unit → α) (radiusRendered : String)
      (cache : MemoryCache α),
      precacheCoverageGapAnalysis analysis radiusRendered cache = (false, cache) :=
  fun _ _ _ => rfl

/-- C3: the expansion-opportunity classifier agrees everywhere with the
spec's priority rules (a. avgReq > 25 → High; b. n = 1 ∧ r > 10 → High;
c. n = 1 ∧ r > 3 → Moderate; d. n < 3 ∧ r > 15 → Moderate;
e. avgReq > 15 → Moderate; f. otherwise None, with avgReq = r/n or 0 when
n = 0), and in particular (1, 11) ↦ High, (1, 5) ↦ Moderate,
(5, 0) ↦ None. -/
theorem expansion_opportunity_matches_spec :
    (∀ n r : ℕ, expansionOpportunity n r = expansionOpportunitySpec n r) ∧
    expansionOpportunity 1 11 = "High" ∧
    expansionOpportunity 1 5 = "Moderate" ∧
    expansionOpportunity 5 0 = "None" := by
  refine ⟨?_, ?_, ?_, ?_⟩
  · intro n r
    simp only [expansionOpportunity, expansionOpportunitySpec]
    have havg : (if n > 0 then ((r : ℚ)) / n else 0) =
        (if n = 0 then 0 else ((r : ℚ)) / n) := by
      rcases Nat.eq_zero_or_pos n with h | h
      · simp [h]
      · rw [if_pos h, if_neg (Nat.pos_iff_ne_zero.mp h)]
    rw [havg]
    split_ifs <;> rfl
  · norm_num [expansionOpportunity]
  · norm_num [expansionOpportunity]
  · norm_num [expansionOpportunity]
/-- Helper: each warehouse falls in exactly one tier bucket. -/
theorem tierBucketsExactlyOne (w : StaticWarehouseData) :
    (isGoldTier w).toNat + (isSilverTier w).toNat + (isBronzeTier w).toNat +
      (isUnTiered w).toNat = 1 := by
  by_cases hG : w.tier = "Gold"
  · simp only [isGoldTier, isSilverTier, isBronzeTier, isUnTiered]
    rw [hG]; decide
  by_cases hP : w.tier = "Potential Gold"
  · simp only [isGoldTier, isSilverTier, isBronzeTier, isUnTiered]
    rw [hP]; decide
  by_cases hS : w.tier = "Silver"
  · simp only [isGoldTier, isSilverTier, isBronzeTier, isUnTiered]
    rw [hS]; decide
  by_cases hB : w.tier = "Bronze"
  · simp only [isGoldTier, isSilverTier, isBronzeTier, isUnTiered]
    rw [hB]; decide
  · simp [isGoldTier, isSilverTier, isBronzeTier, isUnTiered, standardTiers,
      hG, hP, hS, hB]

/-- Helper: `if b then 1 else 0` as `Bool.toNat`. -/
theorem iteOneZeroToNat (b : Bool) : (if b = true then 1 else 0) = b.toNat := by
  cases b <;> rfl

/-- C9: tier counting partitions every group: each warehouse is counted in
exactly one of the gold (tier `Gold` or `Potential Gold`), silver, bronze or
untiered buckets, and the four counts sum to the group's warehouse count. -/
theorem tier_counts_partition :
    ∀ ws : List StaticWarehouseData,
      (∀ w ∈ ws, (isGoldTier w).toNat + (isSilverTier w).toNat +
        (isBronzeTier w).toNat + (isUnTiered w).toNat = 1) ∧
      goldCount ws + silverCount ws + bronzeCount ws + unTieredCount ws =
        ws.length := by
  intro ws
  refine ⟨fun w _ => tierBucketsExactlyOne w, ?_⟩
  induction ws with
  | nil => rfl
  | cons w ws ih =>
    simp only [goldCount, silverCount, bronzeCount, unTieredCount,
      List.countP_cons, List.length_cons, iteOneZeroToNat] at *
    have hone := tierBucketsExactlyOne w
    omega

/-- Helper: evaluation facts about the literal tier strings of the filter
branch. -/
theorem goldLiteralUpper : upperStr (trimStr "Gold") = "GOLD" := rfl

/-- C4: with a tier filter of exactly `["Gold"]`, the filter keeps exactly
the records whose stripped, uppercased tier is `GOLD` or `POTENTIAL GOLD`;
with `["Un-tiered"]` or `["Untiered"]`, it keeps exactly the records whose
stripped tier is empty or (uppercased) outside the four standard tiers. -/
theorem tier_filter_gold_and_untiered :
    ∀ ws : List StaticWarehouseData,
      applyWarehouseFilters ws ⟨some ["Gold"], none, none, none, none, none, none, none, none⟩ =
        ws.filter (fun w => upperStr (trimStr w.tier) = "GOLD" ||
          upperStr (trimStr w.tier) = "POTENTIAL GOLD") ∧
      applyWarehouseFilters ws ⟨some ["Un-tiered"], none, none, none, none, none, none, none, none⟩ =
        ws.filter (fun w => trimStr w.tier = "" ||
          !(standardTiersUpper.contains (upperStr (trimStr w.tier)))) ∧
      applyWarehouseFilters ws ⟨some ["Untiered"], none, none, none, none, none, none, none, none⟩ =
        ws.filter (fun w => trimStr w.tier = "" ||
          !(standardTiersUpper.contains (upperStr (trimStr w.tier)))) := by
  intro ws
  have e1 : upperStr (trimStr "Gold") = "GOLD" := rfl
  have e2 : upperStr (trimStr "Un-tiered") = "UN-TIERED" := rfl
  have e3 : upperStr (trimStr "Untiered") = "UNTIERED" := rfl
  refine ⟨?_, ?_, ?_⟩ <;>
  · refine List.filter_congr ?_
    intro w _
    simp [passesFilters, optListTruthy, optStrTruthy, tierMatches, e1, e2, e3]
/-- Counterexample for the uniform capability-filter claim: the warehouse
whose hazmat field is `"yes"` passes the claimed case-insensitive
comma-split match against the filter `["Yes"]`, yet `apply_warehouse_filters`
rejects it (the hazmat branch is an exact, case-sensitive membership test of
the whole field value in the filter list). -/
theorem capability_filter_claim_false :
    capabilityClaimPass hazmatYesWarehouse.hazmat ["Yes"] = true ∧
    applyWarehouseFilters [hazmatYesWarehouse] hazmatOnlyFilter = [] := by
  constructor
  · decide
  · decide

/-- C2 (amended): of the five capability filters, only paper-clamps and
parking are matched case-insensitively against the record's comma-split
value set (exactly the claimed semantics, via `capabilityClaimPass`);
hazmat and disposal keep a record iff its whole field value is literally
(case-sensitively) one of the filter values; food-grade keeps a record iff
its whole trimmed value equals some filter value case-insensitively, with
no comma splitting; an empty filter list keeps everything. -/
theorem capability_filter_semantics :
    ∀ (ws : List StaticWarehouseData) (vals : List String),
      (applyWarehouseFilters ws ⟨none, none, none, some vals, none, none, none, none, none⟩ =
        ws.filter (fun w => vals.isEmpty || vals.contains w.hazmat)) ∧
      (applyWarehouseFilters ws ⟨none, none, none, none, some vals, none, none, none, none⟩ =
        ws.filter (fun w => vals.isEmpty || vals.contains w.disposal)) ∧
      (applyWarehouseFilters ws ⟨none, none, none, none, none, none, some vals, none, none⟩ =
        ws.filter (fun w => vals.isEmpty || (w.foodGrade ≠ "" &&
          vals.any (fun fg => upperStr (trimStr fg) = upperStr (trimStr w.foodGrade))))) ∧
      (applyWarehouseFilters ws ⟨none, none, none, none, none, none, none, some vals, none⟩ =
        ws.filter (fun w => vals.isEmpty || capabilityClaimPass w.paperClamps vals)) ∧
      (applyWarehouseFilters ws ⟨none, none, none, none, none, none, none, none, some vals⟩ =
        ws.filter (fun w => vals.isEmpty || capabilityClaimPass w.parkingSpots vals)) := by
  intro ws vals
  have hcvEmpty : commaValues "" = [] := rfl
  refine ⟨?_, ?_, ?_, ?_, ?_⟩ <;>
  · refine List.filter_congr ?_
    intro w _
    by_cases hv : vals.isEmpty
    · simp [passesFilters, optListTruthy, optStrTruthy, hv]
    · by_cases hempty : w.paperClamps = "" <;>
      by_cases hempty2 : w.parkingSpots = "" <;>
      (simp [passesFilters, optListTruthy, optStrTruthy, capabilityClaimPass,
        List.any_map, hv, hempty, hempty2, hcvEmpty, Function.comp] <;> rfl)
/-- C8: the normalizer is not total.  On a record whose `Latitude` field is
an error-shaped object, the coordinate coercion leaves the object untouched
(only strings are coerced) and the pydantic `float` validation of `lat`
raises, so `transform_warehouse_to_static_data` raises a `ValidationError`
instead of degrading the field to a default — for every float parser and
request count. -/
theorem transform_not_total_on_error_latitude :
    ∀ (pf : String → Option ℚ) (request_count : ℕ),
      transformWarehouseToStaticData pf errorLatitudeRecord request_count =
        Except.error "Input should be a valid number" :=
  fun _ _ => rfl
/-- Helper: `mapResults` only depends on the function's values on the
radii. -/
theorem mapResults_congr {radii : List ℚ} {g₁ g₂ : ℚ → String}
    (h : ∀ r ∈ radii, g₁ r = g₂ r) : mapResults radii g₁ = mapResults radii g₂ :=
  List.map_congr_left (fun r hr => by rw [h r hr])

/-- Helper: writing to a key present in a `mapResults` dict updates that
key in place. -/
theorem setResult_mapResults {radii : List ℚ} {x : ℚ} (hx : x ∈ radii)
    (g : ℚ → String) (s : String) :
    setResult (mapResults radii g) x s =
      mapResults radii (fun r => if r = x then s else g r) := by
  have hany : (mapResults radii g).any (fun p => decide (p.1 = x)) = true := by
    simp only [mapResults, List.any_eq_true]
    exact ⟨(x, g x), List.mem_map_of_mem _ hx, by simp⟩
  rw [setResult, if_pos hany]
  simp only [mapResults, List.map_map]
  refine List.map_congr_left ?_
  intro r _
  by_cases h : r = x <;> simp [h, Function.comp]

/-- Helper: the failed radii of a `mapResults` dict. -/
theorem failedRadii_mapResults (radii : List ℚ) (g : ℚ → String) :
    failedRadii (mapResults radii g) =
      radii.filter (fun r => decide (g r = "failed")) := by
  simp only [failedRadii, mapResults, List.filter_map, List.map_map]
  rw [show (Prod.fst ∘ fun r : ℚ => (r, g r)) = id from rfl, List.map_id]
  rfl

/-- Helper: the retry fold over a failed sublist updates exactly the keys
of that sublist and appends one call event per key. -/
theorem retryFoldAux (ok : ℚ → ℕ → Bool) (k : ℕ) (radii : List ℚ)
    (fs : List ℚ) (hsub : ∀ x ∈ fs, x ∈ radii) :
    ∀ (g : ℚ → String) (t : List PrecacheEvent),
      (fs.foldl (fun s radius =>
        let success := ok radius k
        ⟨setResult s.results radius (if success then "success" else "failed"),
         s.trace ++ [.call radius k success]⟩)
        ⟨mapResults radii g, t⟩ : PrecacheRun) =
      ⟨mapResults radii (fun r => if r ∈ fs then statusString (ok r k) else g r),
       t ++ fs.map (fun r => .call r k (ok r k))⟩ := by
  induction fs with
  | nil => intro g t; simp
  | cons x fs ih =>
    intro g t
    rw [List.foldl_cons]
    have hx : x ∈ radii := hsub x (List.mem_cons_self x fs)
    show (fs.foldl _
      ⟨setResult (mapResults radii g) x (if ok x k then "success" else "failed"),
       t ++ [.call x k (ok x k)]⟩ : PrecacheRun) = _
    rw [setResult_mapResults hx]
    rw [ih (fun y hy => hsub y (List.mem_cons_of_mem x hy))]
    refine congrArg₂ PrecacheRun.mk ?_ ?_
    · refine mapResults_congr ?_
      intro r _
      by_cases hfs : r ∈ fs
      · simp [hfs, List.mem_cons]
      · by_cases hrx : r = x
        · simp [hfs, hrx, statusString]
        · simp [hfs, hrx, List.mem_cons]
    · simp
/-- Helper: one retry round on a `mapResults` state. -/
theorem retryRound_mapResults (ok : ℚ → ℕ → Bool) (k : ℕ) (radii : List ℚ)
    (g : ℚ → String) (t : List PrecacheEvent) :
    retryRound ok k ⟨mapResults radii g, t⟩ =
      if (radii.filter (fun r => decide (g r = "failed"))).isEmpty then
        ⟨mapResults radii g, t⟩
      else
        ⟨mapResults radii (fun r => if g r = "failed" then statusString (ok r k) else g r),
         t ++ .sleep (RETRY_BASE_DELAY * 2 ^ (k - 1)) ::
           (radii.filter (fun r => decide (g r = "failed"))).map
             (fun r => .call r k (ok r k))⟩ := by
  rw [retryRound]
  simp only [failedRadii_mapResults]
  by_cases hE : (radii.filter (fun r => decide (g r = "failed"))).isEmpty
  · rw [if_pos hE, if_pos hE]
  · rw [if_neg hE, if_neg hE]
    rw [retryFoldAux ok k radii _ (fun x hx => (List.mem_filter.mp hx).1)]
    refine congrArg₂ PrecacheRun.mk ?_ ?_
    · refine mapResults_congr ?_
      intro r hr
      by_cases hf : g r = "failed"
      · rw [if_pos _, if_pos hf]
        exact List.mem_filter.mpr ⟨hr, by simp [hf]⟩
      · rw [if_neg _, if_neg hf]
        intro hmem
        exact hf (by simpa using (List.mem_filter.mp hmem).2)
    · simp

/-- Helper: `statusAfter` at round 0 is the outcome of the initial call. -/
theorem statusAfter_zero (ok : ℚ → ℕ → Bool) (r : ℚ) :
    statusAfter ok 0 r = statusString (ok r 0) := by
  rw [statusAfter, show List.range 1 = [0] from rfl, List.any_cons, List.any_nil,
    Bool.or_false, statusString]

/-- Helper: `statusAfter` evolves by retrying exactly the failed radii. -/
theorem statusAfter_succ (ok : ℚ → ℕ → Bool) (k : ℕ) (r : ℚ) :
    statusAfter ok (k + 1) r =
      if statusAfter ok k r = "failed" then statusString (ok r (k + 1))
      else statusAfter ok k r := by
  rw [statusAfter, statusAfter, List.range_succ, List.any_append,
    List.any_cons, List.any_nil, Bool.or_false]
  cases hA : (List.range (k + 1)).any (fun j => ok r j) <;> rfl

/-- Helper: a radius is failed after round `k` iff every attempt up to and
including round `k` failed. -/
theorem statusAfter_eq_failed (ok : ℚ → ℕ → Bool) (k : ℕ) (r : ℚ) :
    statusAfter ok k r = "failed" ↔ ∀ j < k + 1, ok r j = false := by
  rw [statusAfter]
  by_cases hA : (List.range (k + 1)).any (fun j => ok r j) = true
  · rw [if_pos hA]
    simp only [List.any_eq_true, List.mem_range] at hA
    obtain ⟨j, hj, hok⟩ := hA
    constructor
    · intro h; exact absurd h (by decide)
    · intro h; rw [h j hj] at hok; exact absurd hok (by decide)
  · rw [if_neg hA]
    simp only [List.any_eq_true, List.mem_range, not_exists, not_and] at hA
    constructor
    · intro _ j hj
      have := hA j hj
      simpa using this
    · intro _; rfl

/-- Helper: the initial pass produces one result and one round-0 call per
configured radius, in order. -/
theorem initialPass_eq (ok : ℚ → ℕ → Bool) :
    initialPass ok PRECACHED_RADII =
      ⟨mapResults PRECACHED_RADII (fun r => statusString (ok r 0)),
       PRECACHED_RADII.map (fun r => .call r 0 (ok r 0))⟩ := rfl

/-- Helper: one retry round advances `statusAfter` by one and appends the
round's trace block. -/
theorem roundStep (ok : ℚ → ℕ → Bool) (j : ℕ) (t : List PrecacheEvent) :
    retryRound ok (j + 1) ⟨mapResults PRECACHED_RADII (statusAfter ok j), t⟩ =
      ⟨mapResults PRECACHED_RADII (statusAfter ok (j + 1)),
       t ++ roundBlock ok (j + 1)⟩ := by
  rw [retryRound_mapResults, roundBlock]
  simp only [Nat.add_sub_cancel]
  by_cases hE : (PRECACHED_RADII.filter
      (fun r => decide (statusAfter ok j r = "failed"))).isEmpty
  · rw [if_pos hE, if_pos hE]
    refine congrArg₂ PrecacheRun.mk ?_ (by simp)
    refine mapResults_congr ?_
    intro r hr
    have hnf : ¬ statusAfter ok j r = "failed" := by
      rw [List.isEmpty_iff] at hE
      intro hf
      have : r ∈ PRECACHED_RADII.filter
          (fun r => decide (statusAfter ok j r = "failed")) :=
        List.mem_filter.mpr ⟨hr, by simp [hf]⟩
      rw [hE] at this
      exact absurd this (List.not_mem_nil r)
    rw [statusAfter_succ, if_neg hnf]
  · rw [if_neg hE, if_neg hE]
    refine congrArg₂ PrecacheRun.mk ?_ rfl
    refine mapResults_congr ?_
    intro r _
    rw [statusAfter_succ]

/-- Helper: round-step instances at the three concrete retry rounds. -/
theorem roundStepOne (ok : ℚ → ℕ → Bool) (t : List PrecacheEvent) :
    retryRound ok 1 ⟨mapResults PRECACHED_RADII (statusAfter ok 0), t⟩ =
      ⟨mapResults PRECACHED_RADII (statusAfter ok 1), t ++ roundBlock ok 1⟩ :=
  roundStep ok 0 t

/-- Helper: round-step instance at retry round 2. -/
theorem roundStepTwo (ok : ℚ → ℕ → Bool) (t : List PrecacheEvent) :
    retryRound ok 2 ⟨mapResults PRECACHED_RADII (statusAfter ok 1), t⟩ =
      ⟨mapResults PRECACHED_RADII (statusAfter ok 2), t ++ roundBlock ok 2⟩ :=
  roundStep ok 1 t

/-- Helper: round-step instance at retry round 3. -/
theorem roundStepThree (ok : ℚ → ℕ → Bool) (t : List PrecacheEvent) :
    retryRound ok 3 ⟨mapResults PRECACHED_RADII (statusAfter ok 2), t⟩ =
      ⟨mapResults PRECACHED_RADII (statusAfter ok 3), t ++ roundBlock ok 3⟩ :=
  roundStep ok 2 t

/-- Helper: full characterization of one `precache_all_radii` run. -/
theorem precacheAllRadii_eq (ok : ℚ → ℕ → Bool) :
    precacheAllRadii ok =
      ⟨mapResults PRECACHED_RADII (statusAfter ok 3),
       PRECACHED_RADII.map (fun r => .call r 0 (ok r 0)) ++
         (roundBlock ok 1 ++ (roundBlock ok 2 ++ (roundBlock ok 3 ++
           [.saveTimestamp 2592000])))⟩ := by
  rw [precacheAllRadii, initialPass_eq]
  rw [mapResults_congr (fun r _ => (statusAfter_zero ok r).symm)]
  rw [roundStepOne, roundStepTwo, roundStepThree]
  simp [List.append_assoc]
/-- Helper: final status after the three retry rounds, as a disjunction of
the four per-round outcomes. -/
theorem statusAfter_three (ok : ℚ → ℕ → Bool) (r : ℚ) :
    statusAfter ok 3 r =
      if ok r 0 || ok r 1 || ok r 2 || ok r 3 then "success" else "failed" := by
  cases h0 : ok r 0 <;> cases h1 : ok r 1 <;> cases h2 : ok r 2 <;>
    cases h3 : ok r 3 <;>
    simp [statusAfter, show List.range 4 = [0, 1, 2, 3] from rfl, h0, h1, h2, h3]

/-- Helper: which call events a retry-round trace block contains. -/
theorem call_mem_roundBlock (ok : ℚ → ℕ → Bool) (j : ℕ) (r : ℚ) (k : ℕ)
    (s : Bool) :
    PrecacheEvent.call r k s ∈ roundBlock ok (j + 1) ↔
      (k = j + 1 ∧ r ∈ PRECACHED_RADII ∧ (∀ i < j + 1, ok r i = false) ∧
        s = ok r (j + 1)) := by
  rw [roundBlock]
  simp only [Nat.add_sub_cancel]
  by_cases hE : (PRECACHED_RADII.filter
      (fun x => decide (statusAfter ok j x = "failed"))).isEmpty
  · rw [if_pos hE]
    simp only [List.not_mem_nil, false_iff]
    rintro ⟨_, hr, hfail, _⟩
    have hmem : r ∈ PRECACHED_RADII.filter
        (fun x => decide (statusAfter ok j x = "failed")) :=
      List.mem_filter.mpr ⟨hr, by
        simp only [decide_eq_true_eq]
        exact (statusAfter_eq_failed ok j r).mpr hfail⟩
    rw [List.isEmpty_iff.mp hE] at hmem
    exact absurd hmem (List.not_mem_nil r)
  · rw [if_neg hE]
    constructor
    · intro hmem
      rcases List.mem_cons.mp hmem with hsleep | hcall
      · exact absurd hsleep (by simp)
      · obtain ⟨r2, hr2, heq⟩ := List.mem_map.mp hcall
        obtain ⟨hr2m, hr2f⟩ := List.mem_filter.mp hr2
        obtain ⟨hre, hke, hse⟩ := PrecacheEvent.call.inj heq
        subst hre
        refine ⟨hke.symm, hr2m, ?_, hse.symm⟩
        exact (statusAfter_eq_failed ok j r2).mp (by simpa using hr2f)
    · rintro ⟨hk, hr, hfail, hs⟩
      refine List.mem_cons.mpr (Or.inr ?_)
      refine List.mem_map.mpr ⟨r, ?_, by rw [hk, hs]⟩
      refine List.mem_filter.mpr ⟨hr, ?_⟩
      simp only [decide_eq_true_eq]
      exact (statusAfter_eq_failed ok j r).mpr hfail

/-- Helper: the sleep events of a retry-round trace block. -/
theorem sleeps_roundBlock (ok : ℚ → ℕ → Bool) (j : ℕ) :
    (roundBlock ok (j + 1)).filterMap sleepSeconds =
      if (∃ r ∈ PRECACHED_RADII, ∀ i < j + 1, ok r i = false) then
        [RETRY_BASE_DELAY * 2 ^ j] else [] := by
  rw [roundBlock]
  simp only [Nat.add_sub_cancel]
  have hiff : (PRECACHED_RADII.filter
      (fun x => decide (statusAfter ok j x = "failed"))).isEmpty = true ↔
      ¬ (∃ r ∈ PRECACHED_RADII, ∀ i < j + 1, ok r i = false) := by
    rw [List.isEmpty_iff, List.filter_eq_nil_iff]
    constructor
    · rintro h ⟨r, hr, hfail⟩
      exact absurd ((statusAfter_eq_failed ok j r).mpr hfail) (by simpa using h r hr)
    · intro h r hr
      simp only [decide_eq_true_eq]
      intro hf
      exact h ⟨r, hr, (statusAfter_eq_failed ok j r).mp hf⟩
  by_cases hex : ∃ r ∈ PRECACHED_RADII, ∀ i < j + 1, ok r i = false
  · have hne : (PRECACHED_RADII.filter
        (fun x => decide (statusAfter ok j x = "failed"))).isEmpty = false :=
      Bool.eq_false_iff.mpr (fun h => (hiff.mp h) hex)
    rw [hne, if_pos hex, if_neg (by simp)]
    simp only [List.filterMap_cons, sleepSeconds, List.filterMap_map]
    have hnil : List.filterMap
        (sleepSeconds ∘ fun r => PrecacheEvent.call r (j + 1) (ok r (j + 1)))
        (PRECACHED_RADII.filter (fun r => decide (statusAfter ok j r = "failed"))) = [] :=
      List.filterMap_eq_nil_iff.mpr (fun a _ => rfl)
    rw [hnil]
  · rw [hiff.mpr hex, if_neg hex, if_pos rfl]
    rfl
/-- C5: retry policy of `precache_all_radii`, for every pattern of
per-attempt outcomes `ok radius attempt` (attempt 0 is the initial pass,
1..3 the retry rounds): (1) every configured radius is reported, with
`"success"` iff one of its at most four attempts succeeded (so one radius's
failures never abort or affect its siblings, and a radius still failing
after all attempts is reported `"failed"`); (2) a call for radius `r` at
round `k` happens iff `k ≤ 3` and all of `r`'s earlier attempts failed —
after the initial pass only failed radii are retried, at most 3 times;
(3) the backoff sleeps are exactly `5·2^(k-1)` seconds (5, 10, 20) before
each retry round that has failed radii; (4) the run ends by storing the
last-completed timestamp with a 2592000-second (30-day) TTL. -/
theorem precache_all_radii_retry_policy (ok : ℚ → ℕ → Bool) :
    (precacheAllRadii ok).results =
      PRECACHED_RADII.map (fun r =>
        (r, if ok r 0 || ok r 1 || ok r 2 || ok r 3 then "success" else "failed")) ∧
    (∀ (r : ℚ) (k : ℕ) (s : Bool),
      PrecacheEvent.call r k s ∈ (precacheAllRadii ok).trace ↔
        (r ∈ PRECACHED_RADII ∧ k ≤ MAX_RETRIES ∧ (∀ j < k, ok r j = false) ∧
          s = ok r k)) ∧
    (precacheAllRadii ok).trace.filterMap sleepSeconds =
      (([1, 2, 3] : List ℕ).filter (fun k =>
        decide (∃ r ∈ PRECACHED_RADII, ∀ j < k, ok r j = false))).map
        (fun k => RETRY_BASE_DELAY * 2 ^ (k - 1)) ∧
    (precacheAllRadii ok).trace.getLast? = some (.saveTimestamp 2592000) := by
  have hrun := precacheAllRadii_eq ok
  have hcm1 : ∀ (r : ℚ) (k : ℕ) (s : Bool),
      PrecacheEvent.call r k s ∈ roundBlock ok 1 ↔
        (k = 1 ∧ r ∈ PRECACHED_RADII ∧ (∀ i < 1, ok r i = false) ∧
          s = ok r 1) := fun r k s => call_mem_roundBlock ok 0 r k s
  have hcm2 : ∀ (r : ℚ) (k : ℕ) (s : Bool),
      PrecacheEvent.call r k s ∈ roundBlock ok 2 ↔
        (k = 2 ∧ r ∈ PRECACHED_RADII ∧ (∀ i < 2, ok r i = false) ∧
          s = ok r 2) := fun r k s => call_mem_roundBlock ok 1 r k s
  have hcm3 : ∀ (r : ℚ) (k : ℕ) (s : Bool),
      PrecacheEvent.call r k s ∈ roundBlock ok 3 ↔
        (k = 3 ∧ r ∈ PRECACHED_RADII ∧ (∀ i < 3, ok r i = false) ∧
          s = ok r 3) := fun r k s => call_mem_roundBlock ok 2 r k s
  refine ⟨?_, ?_, ?_, ?_⟩
  · rw [hrun]
    exact List.map_congr_left (fun r _ => by rw [statusAfter_three])
  · intro r k s
    rw [hrun]
    simp only [List.mem_append]
    constructor
    · rintro (hinit | h1 | h2 | h3 | hts)
      · obtain ⟨r2, hr2, heq⟩ := List.mem_map.mp hinit
        obtain ⟨hre, hke, hse⟩ := PrecacheEvent.call.inj heq
        subst hre
        cases hke
        exact ⟨hr2, by decide, fun j hj => absurd hj (by omega), hse.symm⟩
      · obtain ⟨hk, hr, hfail, hs⟩ := (hcm1 r k s).mp h1
        subst hk
        exact ⟨hr, by decide, hfail, hs⟩
      · obtain ⟨hk, hr, hfail, hs⟩ := (hcm2 r k s).mp h2
        subst hk
        exact ⟨hr, by decide, hfail, hs⟩
      · obtain ⟨hk, hr, hfail, hs⟩ := (hcm3 r k s).mp h3
        subst hk
        exact ⟨hr, by decide, hfail, hs⟩
      · simp at hts
    · rintro ⟨hr, hk, hfail, hs⟩
      have hk3 : k ≤ 3 := hk
      interval_cases k
      · subst hs
        exact Or.inl (List.mem_map_of_mem _ hr)
      · exact Or.inr (Or.inl ((hcm1 r 1 s).mpr ⟨rfl, hr, hfail, hs⟩))
      · exact Or.inr (Or.inr (Or.inl ((hcm2 r 2 s).mpr ⟨rfl, hr, hfail, hs⟩)))
      · exact Or.inr (Or.inr (Or.inr (Or.inl ((hcm3 r 3 s).mpr ⟨rfl, hr, hfail, hs⟩))))
  · rw [hrun]
    simp only [List.filterMap_append]
    have h0 : (PRECACHED_RADII.map
        (fun r => PrecacheEvent.call r 0 (ok r 0))).filterMap sleepSeconds = [] := by
      rw [List.filterMap_map]
      exact List.filterMap_eq_nil_iff.mpr (fun a _ => rfl)
    have hts : ([PrecacheEvent.saveTimestamp 2592000] :
        List PrecacheEvent).filterMap sleepSeconds = [] := rfl
    have hs1 : (roundBlock ok 1).filterMap sleepSeconds =
        if (∃ r ∈ PRECACHED_RADII, ∀ i < 1, ok r i = false) then
          [RETRY_BASE_DELAY * 2 ^ 0] else [] := sleeps_roundBlock ok 0
    have hs2 : (roundBlock ok 2).filterMap sleepSeconds =
        if (∃ r ∈ PRECACHED_RADII, ∀ i < 2, ok r i = false) then
          [RETRY_BASE_DELAY * 2 ^ 1] else [] := sleeps_roundBlock ok 1
    have hs3 : (roundBlock ok 3).filterMap sleepSeconds =
        if (∃ r ∈ PRECACHED_RADII, ∀ i < 3, ok r i = false) then
          [RETRY_BASE_DELAY * 2 ^ 2] else [] := sleeps_roundBlock ok 2
    rw [h0, hts, hs1, hs2, hs3]
    have hsplit : ∀ (p : ℕ → Bool) (f : ℕ → ℕ),
        (([1, 2, 3] : List ℕ).filter p).map f =
          (if p 1 = true then [f 1] else []) ++
            ((if p 2 = true then [f 2] else []) ++
              ((if p 3 = true then [f 3] else []) ++ [])) := by
      intro p f
      cases h1 : p 1 <;> cases h2 : p 2 <;> cases h3 : p 3 <;>
        simp [List.filter_cons, h1, h2, h3]
    rw [hsplit]
    simp only [decide_eq_true_eq]
    rfl
  · rw [hrun]
    simp only [← List.append_assoc]
    exact List.getLast?_concat _
/-- Helper: association lookup after mapping values (keys preserved). -/
theorem lookupKey_mapValues {β γ : Type} (f : String → β → γ)
    (l : List (String × β)) (k : String) :
    lookupKey (l.map (fun p => (p.1, f p.1 p.2))) k =
      (lookupKey l k).map (f k) := by
  induction l with
  | nil => rfl
  | cons p rest ih =>
    by_cases h : p.1 = k
    · simp [lookupKey, List.find?_cons, h]
    · simpa [lookupKey, List.find?_cons, h] using ih

/-- Helper: association lookup misses exactly the absent keys. -/
theorem lookupKey_eq_none {β : Type} (l : List (String × β)) (k : String) :
    lookupKey l k = none ↔ k ∉ l.map Prod.fst := by
  induction l with
  | nil => simp [lookupKey]
  | cons p rest ih =>
    by_cases h : p.1 = k
    · simp [lookupKey, List.find?_cons, h]
    · simpa [lookupKey, List.find?_cons, h, Ne.symm h] using ih

/-- Helper: association lookup across an append. -/
theorem lookupKey_append {β : Type} (a b : List (String × β)) (k : String) :
    lookupKey (a ++ b) k =
      match lookupKey a k with
      | some v => some v
      | none => lookupKey b k := by
  rw [lookupKey, List.find?_append]
  cases h : a.find? (fun p => decide (p.1 = k)) <;> simp [lookupKey, h, Option.orElse]

/-- Helper: the Python `key in dict` test as a key-list membership. -/
theorem any_fst_eq {β : Type} (l : List (String × β)) (k : String) :
    l.any (fun q => decide (q.1 = k)) = decide (k ∈ l.map Prod.fst) := by
  induction l with
  | nil => rfl
  | cons p rest ih =>
    by_cases h : p.1 = k
    · simp [h]
    · simp [h, ih, Ne.symm h]
/-- Helper: the phase-1 expansion fold appends exactly the valid warehouses
within the radius whose ids are not already in the group, when the
warehouse ids are pairwise distinct. -/
theorem expandFold_warehouses (dist : ℚ → ℚ → ℚ → ℚ → ℚ)
    (center_lat center_lng radius_miles : ℚ) :
    ∀ (V : List StaticWarehouseData),
      (V.map (fun wh => wh.id)).Nodup → ∀ (d : GroupData),
      ((V.foldl (fun (acc : GroupData × List String) warehouse =>
          if acc.2.contains warehouse.id then acc
          else if dist center_lat center_lng warehouse.lat warehouse.lng ≤ radius_miles then
            (⟨acc.1.warehouses ++ [warehouse], acc.1.totalRequests + warehouse.reqCount⟩,
             acc.2 ++ [warehouse.id])
          else acc)
        (d, d.warehouses.map (fun wh => wh.id))).1).warehouses =
      d.warehouses ++ V.filter (fun v =>
        !((d.warehouses.map (fun wh => wh.id)).contains v.id) &&
        decide (dist center_lat center_lng v.lat v.lng ≤ radius_miles)) := by
  intro V
  induction V with
  | nil => intro _ d; simp
  | cons v V ih =>
    intro hn d
    have hnV : (V.map (fun wh => wh.id)).Nodup := (List.nodup_cons.mp hn).2
    have hvid : v.id ∉ V.map (fun wh => wh.id) := (List.nodup_cons.mp hn).1
    rw [List.foldl_cons, List.filter_cons]
    dsimp only
    by_cases hc : (d.warehouses.map (fun wh => wh.id)).contains v.id
    · rw [if_pos hc]
      simp only [hc, Bool.not_true, Bool.false_and, Bool.false_eq_true, if_false]
      exact ih hnV d
    · rw [if_neg (by simpa using hc)]
      by_cases hd : dist center_lat center_lng v.lat v.lng ≤ radius_miles
      · rw [if_pos hd]
        have hids : (d.warehouses.map (fun wh => wh.id)) ++ [v.id] =
            ((d.warehouses ++ [v]).map (fun wh => wh.id)) := by
          rw [List.map_append]
          rfl
        rw [hids, ih hnV ⟨d.warehouses ++ [v], d.totalRequests + v.reqCount⟩]
        simp only [Bool.not_eq_true] at hc
        simp only [hc, Bool.not_false, Bool.true_and, decide_eq_true hd, if_true]
        have hfilter : V.filter (fun v2 =>
            !((((⟨d.warehouses ++ [v], d.totalRequests + v.reqCount⟩ :
              GroupData).warehouses).map (fun wh => wh.id)).contains v2.id) &&
            decide (dist center_lat center_lng v2.lat v2.lng ≤ radius_miles)) =
            V.filter (fun v2 =>
            !((d.warehouses.map (fun wh => wh.id)).contains v2.id) &&
            decide (dist center_lat center_lng v2.lat v2.lng ≤ radius_miles)) := by
          refine List.filter_congr ?_
          intro v2 hv2
          have hne : v2.id ≠ v.id := by
            intro he
            exact hvid (he ▸ List.mem_map_of_mem (fun wh => wh.id) hv2)
          simp [List.map_append, hne]
        rw [hfilter]
        simp
      · rw [if_neg hd]
        simp only [decide_eq_false hd, Bool.and_false, Bool.false_eq_true, if_false]
        exact ih hnV d

/-- Helper: the warehouses of an expanded group, in closed form. -/
theorem expandGroup_warehouses (dist : ℚ → ℚ → ℚ → ℚ → ℚ) (radius_miles : ℚ)
    (V : List StaticWarehouseData) (usCities : List (String × CityInfo))
    (key : String) (d : GroupData)
    (hV : (V.map (fun wh => wh.id)).Nodup) :
    (expandGroup dist radius_miles V usCities key d).warehouses =
      match groupCenter usCities key d with
      | none => d.warehouses
      | some c => d.warehouses ++ V.filter (fun v =>
          !((d.warehouses.map (fun wh => wh.id)).contains v.id) &&
          decide (dist c.1 c.2 v.lat v.lng ≤ radius_miles)) := by
  rw [expandGroup]
  cases hc : groupCenter usCities key d with
  | none => rfl
  | some c =>
    cases c with
    | mk clat clng => exact expandFold_warehouses dist clat clng radius_miles V hV d

/-- Helper: membership in an expanded group is monotone in the radius. -/
theorem expandGroup_mono (dist : ℚ → ℚ → ℚ → ℚ → ℚ) (r1 r2 : ℚ)
    (hr : r1 ≤ r2) (V : List StaticWarehouseData)
    (usCities : List (String × CityInfo)) (key : String) (d : GroupData)
    (hV : (V.map (fun wh => wh.id)).Nodup) (w : StaticWarehouseData)
    (hw : w ∈ (expandGroup dist r1 V usCities key d).warehouses) :
    w ∈ (expandGroup dist r2 V usCities key d).warehouses := by
  rw [expandGroup_warehouses dist r1 V usCities key d hV] at hw
  rw [expandGroup_warehouses dist r2 V usCities key d hV]
  cases hc : groupCenter usCities key d with
  | none => rw [hc] at hw; exact hw
  | some c =>
    rw [hc] at hw
    rcases List.mem_append.mp hw with hbase | hnew
    · exact List.mem_append_left _ hbase
    · refine List.mem_append_right _ ?_
      obtain ⟨hmem, hcond⟩ := List.mem_filter.mp hnew
      refine List.mem_filter.mpr ⟨hmem, ?_⟩
      simp only [Bool.and_eq_true, decide_eq_true_eq] at hcond ⊢
      exact ⟨hcond.1, le_trans hcond.2 hr⟩
/-- Helper: keys are preserved by value-mapping. -/
theorem keys_mapValues {β γ : Type} (f : String → β → γ) (l : List (String × β)) :
    (l.map (fun p => (p.1, f p.1 p.2))).map Prod.fst = l.map Prod.fst := by
  rw [List.map_map]
  rfl

/-- Helper: the phase-2 fold of `expandAll` appends exactly the
`phase2Extras` entries for the keys not yet present. -/
theorem expandAll_foldl_eq (dist : ℚ → ℚ → ℚ → ℚ → ℚ) (radius_miles : ℚ)
    (V : List StaticWarehouseData) :
    ∀ (cities : List (String × CityInfo)) (acc : List (String × GroupData)),
      cities.foldl (fun acc p =>
        if acc.any (fun q => decide (q.1 = p.1)) then acc
        else if p.2.latitude = 0 ∨ p.2.longitude = 0 then acc
        else
          let nearby := V.filter (fun warehouse =>
            decide (dist p.2.latitude p.2.longitude warehouse.lat warehouse.lng ≤ radius_miles))
          if nearby.isEmpty then acc
          else acc ++ [(p.1, ⟨nearby, (nearby.map (fun wh => wh.reqCount)).sum⟩)]) acc =
      acc ++ phase2Extras dist radius_miles V cities (acc.map Prod.fst) := by
  intro cities
  induction cities with
  | nil => intro acc; simp [phase2Extras]
  | cons p rest ih =>
    intro acc
    rw [List.foldl_cons]
    cases p with
    | mk key ci =>
      rw [phase2Extras]
      dsimp only
      rw [any_fst_eq]
      by_cases hmem : key ∈ acc.map Prod.fst
      · rw [if_pos (decide_eq_true hmem), if_pos hmem]
        exact ih acc
      · rw [if_neg (by simpa using hmem), if_neg hmem]
        by_cases hcoord : ci.latitude = 0 ∨ ci.longitude = 0
        · rw [if_pos hcoord, if_pos hcoord]
          exact ih acc
        · rw [if_neg hcoord, if_neg hcoord]
          by_cases hnear : (V.filter (fun warehouse =>
              decide (dist ci.latitude ci.longitude warehouse.lat warehouse.lng ≤
                radius_miles))).isEmpty
          · rw [if_pos hnear, if_pos hnear]
            exact ih acc
          · rw [if_neg hnear, if_neg hnear]
            rw [ih (acc ++ [(key, _)])]
            rw [List.map_append]
            simp [List.append_assoc]

/-- Helper: every key produced by the phase-2 extras is a catalog key. -/
theorem keys_phase2Extras_subset (dist : ℚ → ℚ → ℚ → ℚ → ℚ) (radius_miles : ℚ)
    (V : List StaticWarehouseData) :
    ∀ (cities : List (String × CityInfo)) (used : List String) (x : String),
      x ∈ (phase2Extras dist radius_miles V cities used).map Prod.fst →
      x ∈ cities.map Prod.fst := by
  intro cities
  induction cities with
  | nil => intro used x h; simp [phase2Extras] at h
  | cons p rest ih =>
    intro used x h
    cases p with
    | mk key ci =>
      rw [phase2Extras] at h
      dsimp only at h
      by_cases hmem : key ∈ used
      · rw [if_pos hmem] at h
        exact List.mem_cons_of_mem _ (ih used x h)
      · rw [if_neg hmem] at h
        by_cases hcoord : ci.latitude = 0 ∨ ci.longitude = 0
        · rw [if_pos hcoord] at h
          exact List.mem_cons_of_mem _ (ih used x h)
        · rw [if_neg hcoord] at h
          by_cases hnear : (V.filter (fun warehouse =>
              decide (dist ci.latitude ci.longitude warehouse.lat warehouse.lng ≤
                radius_miles))).isEmpty
          · rw [if_pos hnear] at h
            exact List.mem_cons_of_mem _ (ih used x h)
          · rw [if_neg hnear] at h
            rcases List.mem_cons.mp h with he | hrest
            · exact List.mem_cons.mpr (Or.inl he)
            · exact List.mem_cons_of_mem _ (ih (used ++ [key]) x hrest)

/-- Helper: the phase-2 extras depend only on which catalog keys are marked
used. -/
theorem phase2Extras_used_congr (dist : ℚ → ℚ → ℚ → ℚ → ℚ) (radius_miles : ℚ)
    (V : List StaticWarehouseData) :
    ∀ (cities : List (String × CityInfo)) (used1 used2 : List String),
      (∀ x ∈ cities.map Prod.fst, (x ∈ used1 ↔ x ∈ used2)) →
      phase2Extras dist radius_miles V cities used1 =
        phase2Extras dist radius_miles V cities used2 := by
  intro cities
  induction cities with
  | nil => intro _ _ _; rfl
  | cons p rest ih =>
    intro used1 used2 hiff
    cases p with
    | mk key ci =>
      rw [phase2Extras, phase2Extras]
      dsimp only
      have hkey : key ∈ used1 ↔ key ∈ used2 := hiff key (by simp)
      have hrest : ∀ x ∈ rest.map Prod.fst, (x ∈ used1 ↔ x ∈ used2) :=
        fun x hx => hiff x (List.mem_cons_of_mem _ hx)
      by_cases hm : key ∈ used1
      · rw [if_pos hm, if_pos (hkey.mp hm)]
        exact ih used1 used2 hrest
      · rw [if_neg hm, if_neg (fun h2 => hm (hkey.mpr h2))]
        by_cases hcoord : ci.latitude = 0 ∨ ci.longitude = 0
        · rw [if_pos hcoord, if_pos hcoord]
          exact ih used1 used2 hrest
        · rw [if_neg hcoord, if_neg hcoord]
          by_cases hnear : (V.filter (fun warehouse =>
              decide (dist ci.latitude ci.longitude warehouse.lat warehouse.lng ≤
                radius_miles))).isEmpty
          · rw [if_pos hnear, if_pos hnear]
            exact ih used1 used2 hrest
          · rw [if_neg hnear, if_neg hnear]
            refine congrArg _ ?_
            refine ih (used1 ++ [key]) (used2 ++ [key]) ?_
            intro x hx
            simp only [List.mem_append, List.mem_singleton]
            exact Iff.or (hrest x hx) Iff.rfl
/-- Helper: lookup at a matching head. -/
theorem lookupKey_cons_self {β : Type} (g : β) (t : List (String × β)) (k : String) :
    lookupKey ((k, g) :: t) k = some g := by
  simp [lookupKey, List.find?_cons]

/-- Helper: lookup skips a non-matching head. -/
theorem lookupKey_cons_ne {β : Type} {key k : String} (h : key ≠ k) (g : β)
    (t : List (String × β)) : lookupKey ((key, g) :: t) k = lookupKey t k := by
  simp [lookupKey, List.find?_cons, h]

/-- Helper: membership in a phase-2 group is monotone in the radius, for a
catalog with pairwise-distinct keys. -/
theorem phase2Extras_mono (dist : ℚ → ℚ → ℚ → ℚ → ℚ) (r1 r2 : ℚ) (hr : r1 ≤ r2)
    (V : List StaticWarehouseData) :
    ∀ (cities : List (String × CityInfo)), (cities.map Prod.fst).Nodup →
    ∀ (used : List String) (k : String) (d1 : GroupData) (w : StaticWarehouseData),
      lookupKey (phase2Extras dist r1 V cities used) k = some d1 →
      w ∈ d1.warehouses →
      ∃ d2, lookupKey (phase2Extras dist r2 V cities used) k = some d2 ∧
        w ∈ d2.warehouses := by
  intro cities
  induction cities with
  | nil => intro _ used k d1 w h1 _; simp [phase2Extras, lookupKey] at h1
  | cons p rest ih =>
    intro hnodup used k d1 w h1 hw
    cases p with
    | mk key ci =>
      have hk0 : key ∉ rest.map Prod.fst := (List.nodup_cons.mp hnodup).1
      have hnr : (rest.map Prod.fst).Nodup := (List.nodup_cons.mp hnodup).2
      rw [phase2Extras] at h1 ⊢
      dsimp only at h1 ⊢
      by_cases hm : key ∈ used
      · rw [if_pos hm] at h1 ⊢
        exact ih hnr used k d1 w h1 hw
      · rw [if_neg hm] at h1 ⊢
        by_cases hcoord : ci.latitude = 0 ∨ ci.longitude = 0
        · rw [if_pos hcoord] at h1 ⊢
          exact ih hnr used k d1 w h1 hw
        · rw [if_neg hcoord] at h1 ⊢
          have hsub : ∀ x ∈ V.filter (fun warehouse =>
              decide (dist ci.latitude ci.longitude warehouse.lat warehouse.lng ≤ r1)),
              x ∈ V.filter (fun warehouse =>
              decide (dist ci.latitude ci.longitude warehouse.lat warehouse.lng ≤ r2)) := by
            intro x hx
            obtain ⟨hxm, hxd⟩ := List.mem_filter.mp hx
            exact List.mem_filter.mpr ⟨hxm, by
              simp only [decide_eq_true_eq] at hxd ⊢
              exact le_trans hxd hr⟩
          by_cases hnear1 : (V.filter (fun warehouse =>
              decide (dist ci.latitude ci.longitude warehouse.lat warehouse.lng ≤
                r1))).isEmpty
          · rw [if_pos hnear1] at h1
            by_cases hnear2 : (V.filter (fun warehouse =>
                decide (dist ci.latitude ci.longitude warehouse.lat warehouse.lng ≤
                  r2))).isEmpty
            · rw [if_pos hnear2]
              exact ih hnr used k d1 w h1 hw
            · rw [if_neg hnear2]
              by_cases hk : key = k
              · subst hk
                have hnone : lookupKey (phase2Extras dist r1 V rest used) key = none :=
                  (lookupKey_eq_none _ _).mpr (fun hmem =>
                    hk0 (keys_phase2Extras_subset dist r1 V rest used key hmem))
                rw [hnone] at h1
                exact absurd h1 (by simp)
              · rw [lookupKey_cons_ne hk]
                rw [phase2Extras_used_congr dist r2 V rest (used ++ [key]) used
                  (fun x hx => by
                    simp only [List.mem_append, List.mem_singleton]
                    constructor
                    · rintro (hxu | hxk)
                      · exact hxu
                      · exact absurd (hxk ▸ hx) hk0
                    · exact Or.inl)]
                exact ih hnr used k d1 w h1 hw
          · rw [if_neg hnear1] at h1
            have hnear2 : ¬ (V.filter (fun warehouse =>
                decide (dist ci.latitude ci.longitude warehouse.lat warehouse.lng ≤
                  r2))).isEmpty = true := by
              intro he
              rw [List.isEmpty_iff] at he
              obtain ⟨x, hx⟩ := List.exists_mem_of_ne_nil
                (V.filter (fun warehouse =>
                  decide (dist ci.latitude ci.longitude warehouse.lat warehouse.lng ≤ r1)))
                (fun hnil => hnear1 (by rw [hnil]; rfl))
              have := hsub x hx
              rw [he] at this
              exact absurd this (List.not_mem_nil x)
            rw [if_neg hnear2]
            by_cases hk : key = k
            · subst hk
              rw [lookupKey_cons_self] at h1
              obtain he := Option.some.inj h1
              subst he
              refine ⟨_, lookupKey_cons_self _ _ _, ?_⟩
              exact hsub w hw
            · rw [lookupKey_cons_ne hk] at h1
              rw [lookupKey_cons_ne hk]
              exact ih hnr (used ++ [key]) k d1 w h1 hw
/-- C7: radius expansion is monotonic.  For a fixed distance function,
catalog with distinct keys, and filtered warehouse set with distinct ids,
every warehouse in a city's group after expansion with radius `r1 > 0` is
still in that city's group after expansion with any radius `r2 ≥ r1`. -/
theorem radius_expansion_monotone (dist : ℚ → ℚ → ℚ → ℚ → ℚ)
    (usCities : List (String × CityInfo)) (statics : List StaticWarehouseData)
    (r1 r2 : ℚ) (key : String) (w : StaticWarehouseData) (d1 : GroupData)
    (hr1 : 0 < r1) (hr12 : r1 ≤ r2)
    (hW : (statics.map (fun wh => wh.id)).Nodup)
    (hC : (usCities.map Prod.fst).Nodup)
    (h1 : lookupKey (coverageGroups dist r1 usCities statics) key = some d1)
    (hw : w ∈ d1.warehouses) :
    ∃ d2, lookupKey (coverageGroups dist r2 usCities statics) key = some d2 ∧
      w ∈ d2.warehouses := by
  have hr2 : 0 < r2 := lt_of_lt_of_le hr1 hr12
  have hV : ((validWarehouses statics).map (fun wh => wh.id)).Nodup := by
    refine List.Nodup.sublist ?_ hW
    exact List.Sublist.map _ (List.filter_sublist statics)
  simp only [coverageGroups] at h1 ⊢
  rw [if_pos hr1] at h1
  rw [if_pos hr2]
  simp only [expandAll] at h1 ⊢
  rw [expandAll_foldl_eq] at h1
  rw [expandAll_foldl_eq]
  rw [lookupKey_append] at h1
  rw [lookupKey_append]
  rw [lookupKey_mapValues] at h1
  rw [lookupKey_mapValues]
  cases hG : lookupKey (groupByCity statics) key with
  | some d0 =>
    rw [hG] at h1
    simp only [Option.map_some'] at h1 ⊢
    have he : expandGroup dist r1 (validWarehouses statics) usCities key d0 = d1 :=
      Option.some.inj h1
    refine ⟨expandGroup dist r2 (validWarehouses statics) usCities key d0, rfl, ?_⟩
    refine expandGroup_mono dist r1 r2 hr12 (validWarehouses statics) usCities key d0
      hV w ?_
    rw [he]
    exact hw
  | none =>
    rw [hG] at h1
    simp only [Option.map_none'] at h1 ⊢
    rw [keys_mapValues] at h1
    rw [keys_mapValues]
    exact phase2Extras_mono dist r1 r2 hr12 (validWarehouses statics) usCities hC
      ((groupByCity statics).map Prod.fst) key d1 w h1 hw

/-- Witness: on the two-warehouse Springfield fixture with the degenerate
distance, the ungrouped warehouse pulled into the Springfield group at
radius 1 is still in the group at radius 2. -/
theorem radius_expansion_monotone_witness :
    ∃ d2, lookupKey (coverageGroups distZero 2 monoCities monoStatics)
        "Springfield,IL" = some d2 ∧ monoWB ∈ d2.warehouses :=
  radius_expansion_monotone distZero monoCities monoStatics 1 2 "Springfield,IL"
    monoWB ⟨[monoWA, monoWB], 5⟩ (by decide) (by decide) (by decide) (by decide)
    (by decide) (by decide)
/-- Helper: the progress indices of a loop are pairwise distinct. -/
theorem progressMarks_nodup (step n : ℕ) : (progressMarks step n).Nodup := by
  refine List.Nodup.filter _ ?_
  exact (List.nodup_range n).map (fun a b => by omega)

/-- Helper: the transform loop emits pairwise-distinct progress events, all
of them `transformedPartial` with an index above the starting index. -/
theorem transformLoop_events (pf : String → Option ℚ)
    (counts : List (String × ℕ)) (total : ℕ) :
    ∀ (recs : List RawRecord) (idx : ℕ),
      (transformLoop pf counts total recs idx).2.1.Nodup ∧
      (∀ e ∈ (transformLoop pf counts total recs idx).2.1,
        ∃ i, idx < i ∧ e = .transformedPartial i total) := by
  intro recs
  induction recs with
  | nil => intro idx; exact ⟨List.nodup_nil, fun e he => absurd he (List.not_mem_nil e)⟩
  | cons record rest ih =>
    intro idx
    rw [transformLoop]
    cases transformWarehouseToStaticData pf record (recordRequestCount counts record) with
    | error e => exact ⟨List.nodup_nil, fun e he => absurd he (List.not_mem_nil e)⟩
    | ok sw =>
      dsimp only
      obtain ⟨ihnodup, ihmem⟩ := ih (idx + 1)
      by_cases hmod : (idx + 1) % 500 = 0
      · rw [if_pos hmod]
        constructor
        · refine List.nodup_cons.mpr ⟨?_, ihnodup⟩
          intro hmem
          obtain ⟨i, hi, he⟩ := ihmem _ hmem
          obtain ⟨hie, _⟩ := StreamEvent.transformedPartial.inj he.symm
          omega
        · intro e he
          rcases List.mem_cons.mp he with rfl | htail
          · exact ⟨idx + 1, by omega, rfl⟩
          · obtain ⟨i, hi, he2⟩ := ihmem _ htail
            exact ⟨i, by omega, he2⟩
      · rw [if_neg hmod]
        refine ⟨by simpa using ihnodup, ?_⟩
        intro e he
        obtain ⟨i, hi, he2⟩ := ihmem _ (by simpa using he)
        exact ⟨i, by omega, he2⟩
/-- Helper: events relating in emission order are distinct, so a trace with
pairwise-ordered events has no duplicate event. -/
theorem nodup_of_pairwise_eventLT {l : List StreamEvent}
    (h : l.Pairwise (fun a b => eventLT a b = true)) : l.Nodup := by
  refine h.imp ?_
  intro a b hab heq
  subst heq
  simp [eventLT] at hab

/-- Helper: a trace whose first part has sites at most `n` and whose second
part has sites above `n` is ordered when both parts are. -/
theorem pairwise_eventLT_append {l₁ l₂ : List StreamEvent} {n : ℕ}
    (h₁ : ∀ e ∈ l₁, eventSite e ≤ n) (h₂ : ∀ e ∈ l₂, n < eventSite e)
    (p₁ : l₁.Pairwise (fun a b => eventLT a b = true))
    (p₂ : l₂.Pairwise (fun a b => eventLT a b = true)) :
    (l₁ ++ l₂).Pairwise (fun a b => eventLT a b = true) := by
  refine List.pairwise_append.mpr ⟨p₁, p₂, ?_⟩
  intro a ha b hb
  have := Nat.lt_of_le_of_lt (h₁ a ha) (h₂ b hb)
  simp [eventLT, this]

/-- Helper: the progress indices of a loop are strictly increasing. -/
theorem progressMarks_pairwise (step n : ℕ) :
    (progressMarks step n).Pairwise (fun a b => a < b) := by
  refine List.Pairwise.sublist (List.filter_sublist _) ?_
  exact (List.pairwise_lt_range n).map _ (fun a b h => by omega)

/-- Helper: the transform loop's progress events are emitted in strictly
increasing order. -/
theorem transformLoop_pairwise (pf : String → Option ℚ)
    (counts : List (String × ℕ)) (total : ℕ) :
    ∀ (recs : List RawRecord) (idx : ℕ),
      (transformLoop pf counts total recs idx).2.1.Pairwise
        (fun a b => eventLT a b = true) := by
  intro recs
  induction recs with
  | nil => intro idx; exact List.Pairwise.nil
  | cons record rest ih =>
    intro idx
    rw [transformLoop]
    cases transformWarehouseToStaticData pf record (recordRequestCount counts record) with
    | error e => exact List.Pairwise.nil
    | ok sw =>
      dsimp only
      by_cases hmod : (idx + 1) % 500 = 0
      · rw [if_pos hmod]
        refine List.pairwise_cons.mpr ⟨?_, ih (idx + 1)⟩
        intro e he
        obtain ⟨i, hi, rfl⟩ := (transformLoop_events pf counts total rest (idx + 1)).2 e he
        simp [eventLT, eventSite, eventIdx, hi]
      · rw [if_neg hmod]
        simpa using ih (idx + 1)

/-- Helper: a mapped loop-progress segment contains no terminal event. -/
theorem countP_terminal_map_zero {α : Type} (f : α → StreamEvent) (l : List α)
    (h : ∀ x, isTerminalEvent (f x) = false) :
    (l.map f).countP isTerminalEvent = 0 :=
  List.countP_eq_zero.mpr (fun e he => by
    obtain ⟨x, _, rfl⟩ := List.mem_map.mp he
    simp [h x])

/-- Helper: the last element of an append with a known last element on the
right. -/
theorem getLast?_append_right {α : Type} (l₁ l₂ : List α) (a : α)
    (h : l₂.getLast? = some a) : (l₁ ++ l₂).getLast? = some a := by
  rw [List.getLast?_append, h]
  rfl
/-- Helper: a trace headed by an event whose site precedes every site in
the tail is ordered when the tail is. -/
theorem pairwise_eventLT_cons {e : StreamEvent} {l : List StreamEvent}
    (h : ∀ b ∈ l, eventSite e < eventSite b)
    (p : l.Pairwise (fun a b => eventLT a b = true)) :
    (e :: l).Pairwise (fun a b => eventLT a b = true) :=
  List.pairwise_cons.mpr ⟨fun b hb => by simp [eventLT, h b hb], p⟩

/-- Helper: the three stream-contract properties for the success trace of
the generator, parametric in the transform-loop events, the filter block
and the radius block (each constrained only by its yield sites). -/
theorem stream_props_core (nrecs tq nc avgM nu ng nsw : ℕ)
    (tevs fblock rblock : List StreamEvent) (res : CoverageAnalysisResponse)
    (hTmem : ∀ e ∈ tevs, ∃ i, e = StreamEvent.transformedPartial i nrecs)
    (hTpw : tevs.Pairwise (fun a b => eventLT a b = true))
    (hFsite : ∀ e ∈ fblock, 10 ≤ eventSite e ∧ eventSite e ≤ 11)
    (hFpw : fblock.Pairwise (fun a b => eventLT a b = true))
    (hFcnt : fblock.countP isTerminalEvent = 0)
    (hRsite : ∀ e ∈ rblock, 18 ≤ eventSite e ∧ eventSite e ≤ 23)
    (hRpw : rblock.Pairwise (fun a b => eventLT a b = true))
    (hRcnt : rblock.countP isTerminalEvent = 0) :
    (StreamEvent.fetchingWarehouses ::
      ([StreamEvent.fetchedWarehouses nrecs, StreamEvent.calculatingTotal,
        StreamEvent.totalRequestsEv tq, StreamEvent.fetchingCounts,
        StreamEvent.fetchedCounts nc, StreamEvent.transformingData] ++
       (tevs ++ (StreamEvent.transformedAll nsw ::
        ((fblock ++ [StreamEvent.calculatingAverage, StreamEvent.averageMonthly avgM,
          StreamEvent.loadingCities, StreamEvent.loadedCities nu,
          StreamEvent.groupingByCity, StreamEvent.groupedCities ng]) ++
         (((rblock ++ [StreamEvent.creatingAnalysis nu]) ++
           (progressMarks 5000 nu).map (fun i => StreamEvent.analyzingCity i nu)) ++
          [StreamEvent.finalizing, StreamEvent.complete,
           StreamEvent.dataEvent res])))))).countP isTerminalEvent = 1 ∧
    (∃ e, (StreamEvent.fetchingWarehouses ::
      ([StreamEvent.fetchedWarehouses nrecs, StreamEvent.calculatingTotal,
        StreamEvent.totalRequestsEv tq, StreamEvent.fetchingCounts,
        StreamEvent.fetchedCounts nc, StreamEvent.transformingData] ++
       (tevs ++ (StreamEvent.transformedAll nsw ::
        ((fblock ++ [StreamEvent.calculatingAverage, StreamEvent.averageMonthly avgM,
          StreamEvent.loadingCities, StreamEvent.loadedCities nu,
          StreamEvent.groupingByCity, StreamEvent.groupedCities ng]) ++
         (((rblock ++ [StreamEvent.creatingAnalysis nu]) ++
           (progressMarks 5000 nu).map (fun i => StreamEvent.analyzingCity i nu)) ++
          [StreamEvent.finalizing, StreamEvent.complete,
           StreamEvent.dataEvent res])))))).getLast? = some e ∧
      isTerminalEvent e = true) ∧
    (StreamEvent.fetchingWarehouses ::
      ([StreamEvent.fetchedWarehouses nrecs, StreamEvent.calculatingTotal,
        StreamEvent.totalRequestsEv tq, StreamEvent.fetchingCounts,
        StreamEvent.fetchedCounts nc, StreamEvent.transformingData] ++
       (tevs ++ (StreamEvent.transformedAll nsw ::
        ((fblock ++ [StreamEvent.calculatingAverage, StreamEvent.averageMonthly avgM,
          StreamEvent.loadingCities, StreamEvent.loadedCities nu,
          StreamEvent.groupingByCity, StreamEvent.groupedCities ng]) ++
         (((rblock ++ [StreamEvent.creatingAnalysis nu]) ++
           (progressMarks 5000 nu).map (fun i => StreamEvent.analyzingCity i nu)) ++
          [StreamEvent.finalizing, StreamEvent.complete,
           StreamEvent.dataEvent res])))))).Nodup := by
  have hTcnt : tevs.countP isTerminalEvent = 0 :=
    List.countP_eq_zero.mpr (fun e he => by
      obtain ⟨i, rfl⟩ := hTmem e he
      simp [isTerminalEvent])
  have hMAcnt : ((progressMarks 5000 nu).map
      (fun i => StreamEvent.analyzingCity i nu)).countP isTerminalEvent = 0 :=
    countP_terminal_map_zero _ _ (fun i => rfl)
  have hsT : ∀ e ∈ tevs, eventSite e = 8 := fun e he => by
    obtain ⟨i, rfl⟩ := hTmem e he
    rfl
  have hsMA : ∀ e ∈ (progressMarks 5000 nu).map
      (fun i => StreamEvent.analyzingCity i nu), eventSite e = 25 := fun e he => by
    obtain ⟨i, _, rfl⟩ := List.mem_map.mp he
    rfl
  have hMApw : ((progressMarks 5000 nu).map
      (fun i => StreamEvent.analyzingCity i nu)).Pairwise
      (fun a b => eventLT a b = true) := by
    refine (progressMarks_pairwise 5000 nu).map _ ?_
    intro a b hab
    simp [eventLT, eventSite, eventIdx, hab]
  refine ⟨?_, ?_, ?_⟩
  · simp [List.countP_cons, List.countP_append, isTerminalEvent, hTcnt, hMAcnt,
      hFcnt, hRcnt]
  · refine ⟨StreamEvent.dataEvent res, ?_, rfl⟩
    have g0 : ([StreamEvent.finalizing, StreamEvent.complete,
        StreamEvent.dataEvent res] : List StreamEvent).getLast? =
        some (StreamEvent.dataEvent res) := rfl
    have g1 := getLast?_append_right
      ((rblock ++ [StreamEvent.creatingAnalysis nu]) ++
        (progressMarks 5000 nu).map (fun i => StreamEvent.analyzingCity i nu)) _ _ g0
    have g2 := getLast?_append_right
      (fblock ++ [StreamEvent.calculatingAverage, StreamEvent.averageMonthly avgM,
        StreamEvent.loadingCities, StreamEvent.loadedCities nu,
        StreamEvent.groupingByCity, StreamEvent.groupedCities ng]) _ _ g1
    have g3 := getLast?_append_right [StreamEvent.transformedAll nsw] _ _ g2
    have g4 := getLast?_append_right tevs _ _ g3
    have g5 := getLast?_append_right
      [StreamEvent.fetchedWarehouses nrecs, StreamEvent.calculatingTotal,
       StreamEvent.totalRequestsEv tq, StreamEvent.fetchingCounts,
       StreamEvent.fetchedCounts nc, StreamEvent.transformingData] _ _ g4
    exact getLast?_append_right [StreamEvent.fetchingWarehouses] _ _ g5
  · refine nodup_of_pairwise_eventLT ?_
    have pEND : ([StreamEvent.finalizing, StreamEvent.complete,
        StreamEvent.dataEvent res] : List StreamEvent).Pairwise
        (fun a b => eventLT a b = true) := by
      simp [List.pairwise_cons, eventLT, eventSite]
    have pRC : ((rblock ++ [StreamEvent.creatingAnalysis nu]) :
        List StreamEvent).Pairwise (fun a b => eventLT a b = true) := by
      refine pairwise_eventLT_append (n := 23) (fun e he => (hRsite e he).2) ?_ hRpw ?_
      · intro e he
        rw [List.mem_singleton.mp he]
        simp [eventSite]
      · simp
    have pRCMA : (((rblock ++ [StreamEvent.creatingAnalysis nu]) ++
        (progressMarks 5000 nu).map (fun i => StreamEvent.analyzingCity i nu)) :
        List StreamEvent).Pairwise (fun a b => eventLT a b = true) := by
      refine pairwise_eventLT_append (n := 24) ?_ ?_ pRC hMApw
      · intro e he
        rcases List.mem_append.mp he with h1 | h1
        · exact le_trans (hRsite e h1).2 (by omega)
        · rw [List.mem_singleton.mp h1]
          simp [eventSite]
      · intro e he
        rw [hsMA e he]
        omega
    have pB1 : ((((rblock ++ [StreamEvent.creatingAnalysis nu]) ++
        (progressMarks 5000 nu).map (fun i => StreamEvent.analyzingCity i nu)) ++
        [StreamEvent.finalizing, StreamEvent.complete,
         StreamEvent.dataEvent res]) : List StreamEvent).Pairwise
        (fun a b => eventLT a b = true) := by
      refine pairwise_eventLT_append (n := 25) ?_ ?_ pRCMA pEND
      · intro e he
        rcases List.mem_append.mp he with h1 | h1
        · rcases List.mem_append.mp h1 with h2 | h2
          · exact le_trans (hRsite e h2).2 (by omega)
          · rw [List.mem_singleton.mp h2]
            simp [eventSite]
        · rw [hsMA e h1]
      · intro e he
        simp only [List.mem_cons, List.not_mem_nil, or_false] at he
        rcases he with rfl | rfl | rfl <;> simp [eventSite]
    have lo_B1 : ∀ e ∈ (((rblock ++ [StreamEvent.creatingAnalysis nu]) ++
        (progressMarks 5000 nu).map (fun i => StreamEvent.analyzingCity i nu)) ++
        [StreamEvent.finalizing, StreamEvent.complete,
         StreamEvent.dataEvent res] : List StreamEvent), 18 ≤ eventSite e := by
      intro e he
      rcases List.mem_append.mp he with h1 | h1
      · rcases List.mem_append.mp h1 with h2 | h2
        · rcases List.mem_append.mp h2 with h3 | h3
          · exact (hRsite e h3).1
          · rw [List.mem_singleton.mp h3]
            simp [eventSite]
        · rw [hsMA e h2]
          omega
      · simp only [List.mem_cons, List.not_mem_nil, or_false] at h1
        rcases h1 with rfl | rfl | rfl <;> simp [eventSite]
    have pMID : ([StreamEvent.calculatingAverage, StreamEvent.averageMonthly avgM,
        StreamEvent.loadingCities, StreamEvent.loadedCities nu,
        StreamEvent.groupingByCity, StreamEvent.groupedCities ng] :
        List StreamEvent).Pairwise (fun a b => eventLT a b = true) := by
      simp [List.pairwise_cons, eventLT, eventSite]
    have pFMID : ((fblock ++ [StreamEvent.calculatingAverage,
        StreamEvent.averageMonthly avgM, StreamEvent.loadingCities,
        StreamEvent.loadedCities nu, StreamEvent.groupingByCity,
        StreamEvent.groupedCities ng]) : List StreamEvent).Pairwise
        (fun a b => eventLT a b = true) := by
      refine pairwise_eventLT_append (n := 11) (fun e he => (hFsite e he).2) ?_ hFpw pMID
      intro e he
      simp only [List.mem_cons, List.not_mem_nil, or_false] at he
      rcases he with rfl | rfl | rfl | rfl | rfl | rfl <;> simp [eventSite]
    have pB2 : (((fblock ++ [StreamEvent.calculatingAverage,
        StreamEvent.averageMonthly avgM, StreamEvent.loadingCities,
        StreamEvent.loadedCities nu, StreamEvent.groupingByCity,
        StreamEvent.groupedCities ng]) ++
        (((rblock ++ [StreamEvent.creatingAnalysis nu]) ++
          (progressMarks 5000 nu).map (fun i => StreamEvent.analyzingCity i nu)) ++
         [StreamEvent.finalizing, StreamEvent.complete,
          StreamEvent.dataEvent res])) : List StreamEvent).Pairwise
        (fun a b => eventLT a b = true) := by
      refine pairwise_eventLT_append (n := 17) ?_ ?_ pFMID pB1
      · intro e he
        rcases List.mem_append.mp he with h1 | h1
        · exact le_trans (hFsite e h1).2 (by omega)
        · simp only [List.mem_cons, List.not_mem_nil, or_false] at h1
          rcases h1 with rfl | rfl | rfl | rfl | rfl | rfl <;> simp [eventSite]
      · intro e he
        exact lt_of_lt_of_le (by omega) (lo_B1 e he)
    have lo_B2 : ∀ e ∈ ((fblock ++ [StreamEvent.calculatingAverage,
        StreamEvent.averageMonthly avgM, StreamEvent.loadingCities,
        StreamEvent.loadedCities nu, StreamEvent.groupingByCity,
        StreamEvent.groupedCities ng]) ++
        (((rblock ++ [StreamEvent.creatingAnalysis nu]) ++
          (progressMarks 5000 nu).map (fun i => StreamEvent.analyzingCity i nu)) ++
         [StreamEvent.finalizing, StreamEvent.complete,
          StreamEvent.dataEvent res]) : List StreamEvent), 10 ≤ eventSite e := by
      intro e he
      rcases List.mem_append.mp he with h1 | h1
      · rcases List.mem_append.mp h1 with h2 | h2
        · exact (hFsite e h2).1
        · simp only [List.mem_cons, List.not_mem_nil, or_false] at h2
          rcases h2 with rfl | rfl | rfl | rfl | rfl | rfl <;> simp [eventSite]
      · exact le_trans (by omega) (lo_B1 e h1)
    have pB3 : ((StreamEvent.transformedAll nsw ::
        ((fblock ++ [StreamEvent.calculatingAverage,
          StreamEvent.averageMonthly avgM, StreamEvent.loadingCities,
          StreamEvent.loadedCities nu, StreamEvent.groupingByCity,
          StreamEvent.groupedCities ng]) ++
         (((rblock ++ [StreamEvent.creatingAnalysis nu]) ++
           (progressMarks 5000 nu).map (fun i => StreamEvent.analyzingCity i nu)) ++
          [StreamEvent.finalizing, StreamEvent.complete,
           StreamEvent.dataEvent res]))) : List StreamEvent).Pairwise
        (fun a b => eventLT a b = true) := by
      refine pairwise_eventLT_cons ?_ pB2
      intro b hb
      exact lt_of_lt_of_le (by simp [eventSite]) (lo_B2 b hb)
    have pB4 : ((tevs ++ (StreamEvent.transformedAll nsw ::
        ((fblock ++ [StreamEvent.calculatingAverage,
          StreamEvent.averageMonthly avgM, StreamEvent.loadingCities,
          StreamEvent.loadedCities nu, StreamEvent.groupingByCity,
          StreamEvent.groupedCities ng]) ++
         (((rblock ++ [StreamEvent.creatingAnalysis nu]) ++
           (progressMarks 5000 nu).map (fun i => StreamEvent.analyzingCity i nu)) ++
          [StreamEvent.finalizing, StreamEvent.complete,
           StreamEvent.dataEvent res])))) : List StreamEvent).Pairwise
        (fun a b => eventLT a b = true) := by
      refine pairwise_eventLT_append (n := 8) ?_ ?_ hTpw pB3
      · intro e he
        rw [hsT e he]
      · intro e he
        rcases List.mem_cons.mp he with rfl | h1
        · simp [eventSite]
        · exact lt_of_lt_of_le (by omega) (lo_B2 e h1)
    refine pairwise_eventLT_cons ?_ (pairwise_eventLT_append (n := 7) ?_ ?_ ?_ pB4)
    · intro b hb
      rcases List.mem_append.mp hb with h1 | h1
      · simp only [List.mem_cons, List.not_mem_nil, or_false] at h1
        rcases h1 with rfl | rfl | rfl | rfl | rfl | rfl <;> simp [eventSite]
      · rcases List.mem_append.mp h1 with h2 | h2
        · rw [hsT b h2]
          simp [eventSite]
        · rcases List.mem_cons.mp h2 with rfl | h3
          · simp [eventSite]
          · exact lt_of_lt_of_le (show 1 < 10 by omega) (lo_B2 b h3)
    · intro e he
      simp only [List.mem_cons, List.not_mem_nil, or_false] at he
      rcases he with rfl | rfl | rfl | rfl | rfl | rfl <;> simp [eventSite]
    · intro e he
      rcases List.mem_append.mp he with h1 | h1
      · rw [hsT e h1]
        omega
      · rcases List.mem_cons.mp h1 with rfl | h2
        · simp [eventSite]
        · exact lt_of_lt_of_le (by omega) (lo_B2 e h2)
    · simp [List.pairwise_cons, eventLT, eventSite]
/-- Helper: the filter block of the stream yields at sites 10-11, in order,
with no terminal event. -/
theorem fblock_props (f : CoverageGapFilters) (m : ℕ) :
    (∀ e ∈ ([StreamEvent.applyingFilters f, StreamEvent.afterFiltering m] :
        List StreamEvent), 10 ≤ eventSite e ∧ eventSite e ≤ 11) ∧
    ([StreamEvent.applyingFilters f, StreamEvent.afterFiltering m] :
        List StreamEvent).Pairwise (fun a b => eventLT a b = true) ∧
    ([StreamEvent.applyingFilters f, StreamEvent.afterFiltering m] :
        List StreamEvent).countP isTerminalEvent = 0 := by
  refine ⟨?_, ?_, rfl⟩
  · intro e he
    simp only [List.mem_cons, List.not_mem_nil, or_false] at he
    rcases he with rfl | rfl <;> simp [eventSite]
  · simp [List.pairwise_cons, eventLT, eventSite]

/-- Helper: the radius-expansion block of the stream yields at sites 18-23,
in order, with no terminal event. -/
theorem rblock_props (r : ℚ) (a nu c : ℕ) :
    (∀ e ∈ (([StreamEvent.expandingRadius r, StreamEvent.processingWarehouses a nu,
        StreamEvent.expandingExisting, StreamEvent.checkingAllCities nu] ++
        (progressMarks 5000 nu).map (fun i => StreamEvent.processingCity i nu) ++
        [StreamEvent.expansionCompleted c]) : List StreamEvent),
      18 ≤ eventSite e ∧ eventSite e ≤ 23) ∧
    (([StreamEvent.expandingRadius r, StreamEvent.processingWarehouses a nu,
        StreamEvent.expandingExisting, StreamEvent.checkingAllCities nu] ++
        (progressMarks 5000 nu).map (fun i => StreamEvent.processingCity i nu) ++
        [StreamEvent.expansionCompleted c]) : List StreamEvent).Pairwise
      (fun a b => eventLT a b = true) ∧
    (([StreamEvent.expandingRadius r, StreamEvent.processingWarehouses a nu,
        StreamEvent.expandingExisting, StreamEvent.checkingAllCities nu] ++
        (progressMarks 5000 nu).map (fun i => StreamEvent.processingCity i nu) ++
        [StreamEvent.expansionCompleted c]) : List StreamEvent).countP
      isTerminalEvent = 0 := by
  have hMcnt : ((progressMarks 5000 nu).map
      (fun i => StreamEvent.processingCity i nu)).countP isTerminalEvent = 0 :=
    countP_terminal_map_zero _ _ (fun i => rfl)
  have hsM : ∀ e ∈ (progressMarks 5000 nu).map
      (fun i => StreamEvent.processingCity i nu), eventSite e = 22 := fun e he => by
    obtain ⟨i, _, rfl⟩ := List.mem_map.mp he
    rfl
  have hMpw : ((progressMarks 5000 nu).map
      (fun i => StreamEvent.processingCity i nu)).Pairwise
      (fun a b => eventLT a b = true) := by
    refine (progressMarks_pairwise 5000 nu).map _ ?_
    intro a b hab
    simp [eventLT, eventSite, eventIdx, hab]
  refine ⟨?_, ?_, ?_⟩
  · intro e he
    rcases List.mem_append.mp he with h1 | h1
    · rcases List.mem_append.mp h1 with h2 | h2
      · simp only [List.mem_cons, List.not_mem_nil, or_false] at h2
        rcases h2 with rfl | rfl | rfl | rfl <;> simp [eventSite]
      · rw [hsM e h2]
        omega
    · rw [List.mem_singleton.mp h1]
      simp [eventSite]
  · refine pairwise_eventLT_append (n := 22) ?_ ?_ ?_ ?_
    · intro e he
      rcases List.mem_append.mp he with h1 | h1
      · simp only [List.mem_cons, List.not_mem_nil, or_false] at h1
        rcases h1 with rfl | rfl | rfl | rfl <;> simp [eventSite]
      · rw [hsM e h1]
    · intro e he
      rw [List.mem_singleton.mp he]
      simp [eventSite]
    · refine pairwise_eventLT_append (n := 21) ?_ ?_ ?_ hMpw
      · intro e he
        simp only [List.mem_cons, List.not_mem_nil, or_false] at he
        rcases he with rfl | rfl | rfl | rfl <;> simp [eventSite]
      · intro e he
        rw [hsM e he]
        omega
      · simp [List.pairwise_cons, eventLT, eventSite]
    · simp
  · simp [List.countP_append, List.countP_cons, isTerminalEvent, hMcnt]
/-- C6: every event sequence produced by the streaming coverage-gap analysis
contains exactly one terminal event (a data event on success or an error
event on failure), that terminal event is the last event of the sequence,
and no event is ever emitted twice. -/
theorem stream_single_terminal_event (env : StreamEnv) :
    (coverageGapAnalysisStreamEvents env).countP isTerminalEvent = 1 ∧
    (∃ e, (coverageGapAnalysisStreamEvents env).getLast? = some e ∧
      isTerminalEvent e = true) ∧
    (coverageGapAnalysisStreamEvents env).Nodup := by
  obtain ⟨cached, fetchR, totalReq, counts, avgM, cities, pf, dist, filters, radius⟩ := env
  cases cached with
  | some res =>
    refine ⟨rfl, ⟨StreamEvent.dataEvent res, rfl, rfl⟩, ?_⟩
    simp [coverageGapAnalysisStreamEvents]
  | none =>
    cases fetchR with
    | error e =>
      refine ⟨rfl, ⟨StreamEvent.errorEvent ("Coverage gap analysis failed: " ++ e), rfl, rfl⟩, ?_⟩
      simp [coverageGapAnalysisStreamEvents]
    | ok recs =>
      simp only [coverageGapAnalysisStreamEvents]
      have hTm := (transformLoop_events pf counts recs.length recs 0).2
      have hTpw2 := transformLoop_pairwise pf counts recs.length recs 0
      cases hE : (transformLoop pf counts recs.length recs 0).2.2 with
      | some e =>
        have hsT : ∀ ev ∈ (transformLoop pf counts recs.length recs 0).2.1, eventSite ev = 8 := fun ev he => by
          obtain ⟨i, _, rfl⟩ := hTm ev he
          rfl
        have hTcnt : (transformLoop pf counts recs.length recs 0).2.1.countP isTerminalEvent = 0 :=
          List.countP_eq_zero.mpr (fun ev he => by
            obtain ⟨i, _, rfl⟩ := hTm ev he
            simp [isTerminalEvent])
        refine ⟨?_, ⟨StreamEvent.errorEvent ("Coverage gap analysis failed: " ++ e), ?_, rfl⟩, ?_⟩
        · simp [List.countP_cons, List.countP_append, isTerminalEvent, hTcnt]
        · have g0 : ([StreamEvent.errorEvent ("Coverage gap analysis failed: " ++ e)] :
              List StreamEvent).getLast? =
              some (StreamEvent.errorEvent ("Coverage gap analysis failed: " ++ e)) := rfl
          have g1 := getLast?_append_right (transformLoop pf counts recs.length recs 0).2.1 _ _ g0
          have g2 := getLast?_append_right
            [StreamEvent.fetchedWarehouses recs.length, StreamEvent.calculatingTotal, StreamEvent.totalRequestsEv totalReq, StreamEvent.fetchingCounts, StreamEvent.fetchedCounts counts.length, StreamEvent.transformingData] _ _ g1
          exact getLast?_append_right [StreamEvent.fetchingWarehouses] _ _ g2
        · refine nodup_of_pairwise_eventLT ?_
          have p0 : ([StreamEvent.errorEvent ("Coverage gap analysis failed: " ++ e)] :
              List StreamEvent).Pairwise (fun a b => eventLT a b = true) := by simp
          have p1 := pairwise_eventLT_append (n := 8)
            (fun ev he => le_of_eq (hsT ev he))
            (fun ev he => by rw [List.mem_singleton.mp he]; simp [eventSite])
            hTpw2 p0
          have p2 := @pairwise_eventLT_append [StreamEvent.fetchedWarehouses recs.length, StreamEvent.calculatingTotal, StreamEvent.totalRequestsEv totalReq, StreamEvent.fetchingCounts, StreamEvent.fetchedCounts counts.length, StreamEvent.transformingData] _ 7
            (fun ev he => by
              simp only [List.mem_cons, List.not_mem_nil, or_false] at he
              rcases he with rfl | rfl | rfl | rfl | rfl | rfl <;> simp [eventSite])
            (fun ev he => by
              rcases List.mem_append.mp he with h1 | h1
              · rw [hsT ev h1]; omega
              · rw [List.mem_singleton.mp h1]; simp [eventSite])
            (by simp [List.pairwise_cons, eventLT, eventSite]) p1
          exact pairwise_eventLT_cons
            (fun b hb => by
              rcases List.mem_append.mp hb with h1 | h1
              · simp only [List.mem_cons, List.not_mem_nil, or_false] at h1
                rcases h1 with rfl | rfl | rfl | rfl | rfl | rfl <;> simp [eventSite]
              · rcases List.mem_append.mp h1 with h2 | h2
                · rw [hsT b h2]; simp [eventSite]
                · rw [List.mem_singleton.mp h2]; simp [eventSite])
            p2
      | none =>
        cases filters with
        | none =>
          cases radius with
          | none =>
            exact stream_props_core
              recs.length
              totalReq
              counts.length
              avgM
              cities.length
              (groupByCity (transformLoop pf counts recs.length recs 0).1).length
              (transformLoop pf counts recs.length recs 0).1.length
              (transformLoop pf counts recs.length recs 0).2.1
              ([] : List StreamEvent)
              ([] : List StreamEvent)
              { warehouses := (transformLoop pf counts recs.length recs 0).1, coverageAnalysis := cities.map (fun p => cityAnalysis dist (groupByCity (transformLoop pf counts recs.length recs 0).1) p.1 p.2), average_number_of_requests := avgM, totalWarehouses := (transformLoop pf counts recs.length recs 0).1.length, totalRequests := totalReq, analysisRadius := (50 : ℚ) }
              (fun e he => (hTm e he).imp (fun i hi => hi.2))
              hTpw2
              (fun e he => absurd he (List.not_mem_nil e))
              List.Pairwise.nil
              rfl
              (fun e he => absurd he (List.not_mem_nil e))
              List.Pairwise.nil
              rfl
          | some r =>
            by_cases hr : 0 < r
            · simp only [decide_eq_true hr]
              exact stream_props_core
                recs.length
                totalReq
                counts.length
                avgM
                cities.length
                (groupByCity (transformLoop pf counts recs.length recs 0).1).length
                (transformLoop pf counts recs.length recs 0).1.length
                (transformLoop pf counts recs.length recs 0).2.1
                ([] : List StreamEvent)
                ([StreamEvent.expandingRadius r, StreamEvent.processingWarehouses (validWarehouses (transformLoop pf counts recs.length recs 0).1).length cities.length, StreamEvent.expandingExisting, StreamEvent.checkingAllCities cities.length] ++ (progressMarks 5000 cities.length).map (fun i => StreamEvent.processingCity i cities.length) ++ [StreamEvent.expansionCompleted (expandAll dist r (validWarehouses (transformLoop pf counts recs.length recs 0).1) cities (groupByCity (transformLoop pf counts recs.length recs 0).1)).length])
                { warehouses := (transformLoop pf counts recs.length recs 0).1, coverageAnalysis := cities.map (fun p => cityAnalysis dist (expandAll dist r (validWarehouses (transformLoop pf counts recs.length recs 0).1) cities (groupByCity (transformLoop pf counts recs.length recs 0).1)) p.1 p.2), average_number_of_requests := avgM, totalWarehouses := (transformLoop pf counts recs.length recs 0).1.length, totalRequests := totalReq, analysisRadius := (if r ≠ 0 then r else 50) }
                (fun e he => (hTm e he).imp (fun i hi => hi.2))
                hTpw2
                (fun e he => absurd he (List.not_mem_nil e))
                List.Pairwise.nil
                rfl
                (rblock_props r (validWarehouses (transformLoop pf counts recs.length recs 0).1).length cities.length (expandAll dist r (validWarehouses (transformLoop pf counts recs.length recs 0).1) cities (groupByCity (transformLoop pf counts recs.length recs 0).1)).length).1
                (rblock_props r (validWarehouses (transformLoop pf counts recs.length recs 0).1).length cities.length (expandAll dist r (validWarehouses (transformLoop pf counts recs.length recs 0).1) cities (groupByCity (transformLoop pf counts recs.length recs 0).1)).length).2.1
                (rblock_props r (validWarehouses (transformLoop pf counts recs.length recs 0).1).length cities.length (expandAll dist r (validWarehouses (transformLoop pf counts recs.length recs 0).1) cities (groupByCity (transformLoop pf counts recs.length recs 0).1)).length).2.2
            · simp only [decide_eq_false hr]
              exact stream_props_core
                recs.length
                totalReq
                counts.length
                avgM
                cities.length
                (groupByCity (transformLoop pf counts recs.length recs 0).1).length
                (transformLoop pf counts recs.length recs 0).1.length
                (transformLoop pf counts recs.length recs 0).2.1
                ([] : List StreamEvent)
                ([] : List StreamEvent)
                { warehouses := (transformLoop pf counts recs.length recs 0).1, coverageAnalysis := cities.map (fun p => cityAnalysis dist (groupByCity (transformLoop pf counts recs.length recs 0).1) p.1 p.2), average_number_of_requests := avgM, totalWarehouses := (transformLoop pf counts recs.length recs 0).1.length, totalRequests := totalReq, analysisRadius := (if r ≠ 0 then r else 50) }
                (fun e he => (hTm e he).imp (fun i hi => hi.2))
                hTpw2
                (fun e he => absurd he (List.not_mem_nil e))
                List.Pairwise.nil
                rfl
                (fun e he => absurd he (List.not_mem_nil e))
                List.Pairwise.nil
                rfl
        | some f =>
          cases radius with
          | none =>
            exact stream_props_core
              recs.length
              totalReq
              counts.length
              avgM
              cities.length
              (groupByCity (applyWarehouseFilters (transformLoop pf counts recs.length recs 0).1 f)).length
              (transformLoop pf counts recs.length recs 0).1.length
              (transformLoop pf counts recs.length recs 0).2.1
              [StreamEvent.applyingFilters f, StreamEvent.afterFiltering (applyWarehouseFilters (transformLoop pf counts recs.length recs 0).1 f).length]
              ([] : List StreamEvent)
              { warehouses := (applyWarehouseFilters (transformLoop pf counts recs.length recs 0).1 f), coverageAnalysis := cities.map (fun p => cityAnalysis dist (groupByCity (applyWarehouseFilters (transformLoop pf counts recs.length recs 0).1 f)) p.1 p.2), average_number_of_requests := avgM, totalWarehouses := (applyWarehouseFilters (transformLoop pf counts recs.length recs 0).1 f).length, totalRequests := totalReq, analysisRadius := (50 : ℚ) }
              (fun e he => (hTm e he).imp (fun i hi => hi.2))
              hTpw2
              (fblock_props f (applyWarehouseFilters (transformLoop pf counts recs.length recs 0).1 f).length).1
              (fblock_props f (applyWarehouseFilters (transformLoop pf counts recs.length recs 0).1 f).length).2.1
              (fblock_props f (applyWarehouseFilters (transformLoop pf counts recs.length recs 0).1 f).length).2.2
              (fun e he => absurd he (List.not_mem_nil e))
              List.Pairwise.nil
              rfl
          | some r =>
            by_cases hr : 0 < r
            · simp only [decide_eq_true hr]
              exact stream_props_core
                recs.length
                totalReq
                counts.length
                avgM
                cities.length
                (groupByCity (applyWarehouseFilters (transformLoop pf counts recs.length recs 0).1 f)).length
                (transformLoop pf counts recs.length recs 0).1.length
                (transformLoop pf counts recs.length recs 0).2.1
                [StreamEvent.applyingFilters f, StreamEvent.afterFiltering (applyWarehouseFilters (transformLoop pf counts recs.length recs 0).1 f).length]
                ([StreamEvent.expandingRadius r, StreamEvent.processingWarehouses (validWarehouses (applyWarehouseFilters (transformLoop pf counts recs.length recs 0).1 f)).length cities.length, StreamEvent.expandingExisting, StreamEvent.checkingAllCities cities.length] ++ (progressMarks 5000 cities.length).map (fun i => StreamEvent.processingCity i cities.length) ++ [StreamEvent.expansionCompleted (expandAll dist r (validWarehouses (applyWarehouseFilters (transformLoop pf counts recs.length recs 0).1 f)) cities (groupByCity (applyWarehouseFilters (transformLoop pf counts recs.length recs 0).1 f))).length])
                { warehouses := (applyWarehouseFilters (transformLoop pf counts recs.length recs 0).1 f), coverageAnalysis := cities.map (fun p => cityAnalysis dist (expandAll dist r (validWarehouses (applyWarehouseFilters (transformLoop pf counts recs.length recs 0).1 f)) cities (groupByCity (applyWarehouseFilters (transformLoop pf counts recs.length recs 0).1 f))) p.1 p.2), average_number_of_requests := avgM, totalWarehouses := (applyWarehouseFilters (transformLoop pf counts recs.length recs 0).1 f).length, totalRequests := totalReq, analysisRadius := (if r ≠ 0 then r else 50) }
                (fun e he => (hTm e he).imp (fun i hi => hi.2))
                hTpw2
                (fblock_props f (applyWarehouseFilters (transformLoop pf counts recs.length recs 0).1 f).length).1
                (fblock_props f (applyWarehouseFilters (transformLoop pf counts recs.length recs 0).1 f).length).2.1
                (fblock_props f (applyWarehouseFilters (transformLoop pf counts recs.length recs 0).1 f).length).2.2
                (rblock_props r (validWarehouses (applyWarehouseFilters (transformLoop pf counts recs.length recs 0).1 f)).length cities.length (expandAll dist r (validWarehouses (applyWarehouseFilters (transformLoop pf counts recs.length recs 0).1 f)) cities (groupByCity (applyWarehouseFilters (transformLoop pf counts recs.length recs 0).1 f))).length).1
                (rblock_props r (validWarehouses (applyWarehouseFilters (transformLoop pf counts recs.length recs 0).1 f)).length cities.length (expandAll dist r (validWarehouses (applyWarehouseFilters (transformLoop pf counts recs.length recs 0).1 f)) cities (groupByCity (applyWarehouseFilters (transformLoop pf counts recs.length recs 0).1 f))).length).2.1
                (rblock_props r (validWarehouses (applyWarehouseFilters (transformLoop pf counts recs.length recs 0).1 f)).length cities.length (expandAll dist r (validWarehouses (applyWarehouseFilters (transformLoop pf counts recs.length recs 0).1 f)) cities (groupByCity (applyWarehouseFilters (transformLoop pf counts recs.length recs 0).1 f))).length).2.2
            · simp only [decide_eq_false hr]
              exact stream_props_core
                recs.length
                totalReq
                counts.length
                avgM
                cities.length
                (groupByCity (applyWarehouseFilters (transformLoop pf counts recs.length recs 0).1 f)).length
                (transformLoop pf counts recs.length recs 0).1.length
                (transformLoop pf counts recs.length recs 0).2.1
                [StreamEvent.applyingFilters f, StreamEvent.afterFiltering (applyWarehouseFilters (transformLoop pf counts recs.length recs 0).1 f).length]
                ([] : List StreamEvent)
                { warehouses := (applyWarehouseFilters (transformLoop pf counts recs.length recs 0).1 f), coverageAnalysis := cities.map (fun p => cityAnalysis dist (groupByCity (applyWarehouseFilters (transformLoop pf counts recs.length recs 0).1 f)) p.1 p.2), average_number_of_requests := avgM, totalWarehouses := (applyWarehouseFilters (transformLoop pf counts recs.length recs 0).1 f).length, totalRequests := totalReq, analysisRadius := (if r ≠ 0 then r else 50) }
                (fun e he => (hTm e he).imp (fun i hi => hi.2))
                hTpw2
                (fblock_props f (applyWarehouseFilters (transformLoop pf counts recs.length recs 0).1 f).length).1
                (fblock_props f (applyWarehouseFilters (transformLoop pf counts recs.length recs 0).1 f).length).2.1
                (fblock_props f (applyWarehouseFilters (transformLoop pf counts recs.length recs 0).1 f).length).2.2
                (fun e he => absurd he (List.not_mem_nil e))
                List.Pairwise.nil
                rfl
